import Mathlib

/-!
# BookingAssistant core — verification development

Shallow embedding of the core of the BookingAssistant repository:
the metrics/session layer (`src/metrics_service.py`), the resilient
connection acquisition (`MetricsCollector._get_connection`), and the
LangGraph stage pipeline (`src/main.py`) together with its caller
(`run_assistant.py`).

Modelling conventions:
* Wall-clock time is integer milliseconds (`Time := Int`).  The several
  `datetime.now(timezone.utc)` calls that a single Python operation makes
  in direct succession are modelled as one time sample `now` passed to the
  operation.
* SHA-256 fingerprints: the code hashes the string `body ++ "|" ++ sender`.
  Claims depend only on equality of fingerprints, never on digest values,
  so the hash is modelled as the (injective) content key itself.
* `psycopg2` floats (`0.60`, `0.45`, `round(x, 4)` …) are modelled with
  exact rationals; every value the code produces has at most four decimal
  digits, where Python's binary floats and banker's rounding agree with
  exact rational arithmetic.
* Each `MetricsCollector._execute_query` call site receives a `fail : Bool`
  flag: `true` models the pool being absent, connection retries being
  exhausted, or the query erroring — all of which make `_execute_query`
  return `None` and leave the store unchanged.
* External collaborators (LLM completions, vector search, document store,
  Slack, Gmail) are oracles: each call is a fixed `Except String String`
  value, `.error e` modelling a raised exception with message `e`.
-/

set_option linter.unusedVariables false
set_option linter.unusedTactic false

namespace BookingAssistant

abbrev Time := Int

/-! ## Python string primitives -/

/-- Python `str.strip()` whitespace set (ASCII fragment). -/
def isPySpace (c : Char) : Bool :=
  c == ' ' || c == '\t' || c == '\n' || c == '\r' || c == '\x0b' || c == '\x0c'

def pyStripList (s : List Char) : List Char :=
  ((s.dropWhile isPySpace).reverse.dropWhile isPySpace).reverse

/-- Python `str.strip()` on ASCII text. -/
def pyStrip (s : String) : String := ⟨pyStripList s.data⟩

def pyLowerChar (c : Char) : Char :=
  if 'A' ≤ c ∧ c ≤ 'Z' then Char.ofNat (c.toNat + 32) else c

/-- Python `str.lower()` on ASCII text. -/
def pyLower (s : String) : String := ⟨s.data.map pyLowerChar⟩

/-- Index of the first occurrence of character `c` in `s`. -/
def charIndexFromStart (s : List Char) (c : Char) : Option Nat :=
  match s with
  | [] => none
  | a :: r => if a == c then some 0 else (charIndexFromStart r c).map (· + 1)

/-- Index of the last occurrence of character `c` in `s`. -/
def charIndexFromEnd (s : List Char) (c : Char) : Option Nat :=
  match charIndexFromStart s.reverse c with
  | none => none
  | some i => some (s.length - 1 - i)

/-- Python `str.rfind(c)`: index of last occurrence, `-1` when absent. -/
def pyRfind (s : List Char) (c : Char) : Int :=
  match charIndexFromEnd s c with
  | none => -1
  | some i => (i : Int)

/-- Python slice `s[a:b]`, including negative-index normalisation. -/
def pySlice (s : List Char) (a b : Int) : List Char :=
  let n : Int := s.length
  let na : Int := if a < 0 then max (a + n) 0 else min a n
  let nb : Int := if b < 0 then max (b + n) 0 else min b n
  if na < nb then (s.drop na.toNat).take (nb - na).toNat else []

/-- Number of occurrences of character `c` in `s` (Python `str.count(c)`). -/
def countChar (s : List Char) (c : Char) : Nat :=
  (s.filter (fun a => a == c)).length

/-- The character U+007B (left curly bracket). -/
def lbrace : Char := Char.ofNat 123

/-- The character U+007D (right curly bracket). -/
def rbrace : Char := Char.ofNat 125

/-! ## Python `round` (banker's rounding) at four decimal places -/

/-- Round-half-to-even on rationals, yielding an integer. -/
def roundHalfEven (x : ℚ) : Int :=
  if x - (⌊x⌋ : ℚ) < 1/2 then ⌊x⌋
  else if 1/2 < x - (⌊x⌋ : ℚ) then ⌊x⌋ + 1
  else if ⌊x⌋ % 2 = 0 then ⌊x⌋ else ⌊x⌋ + 1

/-- Python `round(x, 4)` on exact rationals. -/
def pyRound4 (x : ℚ) : ℚ := (roundHalfEven (x * 10000) : ℚ) / 10000

theorem roundHalfEven_nonneg {x : ℚ} (hx : 0 ≤ x) : 0 ≤ roundHalfEven x := by
  unfold roundHalfEven
  have hf : (0 : Int) ≤ ⌊x⌋ := Int.le_floor.mpr (by exact_mod_cast hx)
  split <;> [exact hf; skip]
  split <;> [omega; skip]
  split <;> omega

theorem roundHalfEven_le_int {x : ℚ} {N : Int} (hx : x ≤ (N : ℚ)) :
    roundHalfEven x ≤ N := by
  unfold roundHalfEven
  have hfN : ⌊x⌋ ≤ N := by
    have := Int.floor_le_floor hx
    simpa using this
  have hfl : (⌊x⌋ : ℚ) ≤ x := Int.floor_le x
  split
  · exact hfN
  · -- in the remaining branches the fractional part is ≥ 1/2, so x is not an
    -- integer and ⌊x⌋ < N
    rename_i h1
    have hrpos : (0 : ℚ) < x - (⌊x⌋ : ℚ) := by
      by_contra hc
      push_neg at hc
      have : x - (⌊x⌋ : ℚ) < 1/2 := by linarith
      exact h1 this
    have hlt : ⌊x⌋ < N := by
      rcases lt_or_eq_of_le hfN with h | h
      · exact h
      · exfalso
        have : x ≤ (⌊x⌋ : ℚ) := by rw [h]; exact hx
        linarith
    split
    · omega
    · split <;> omega

theorem pyRound4_nonneg {x : ℚ} (hx : 0 ≤ x) : 0 ≤ pyRound4 x := by
  unfold pyRound4
  have h : (0 : Int) ≤ roundHalfEven (x * 10000) :=
    roundHalfEven_nonneg (by positivity)
  positivity

theorem pyRound4_le_one {x : ℚ} (hx : x ≤ 1) : pyRound4 x ≤ 1 := by
  unfold pyRound4
  have h : roundHalfEven (x * 10000) ≤ 10000 :=
    roundHalfEven_le_int (by push_cast; linarith)
  rw [div_le_one (by norm_num)]
  exact_mod_cast h

/-- `round(x, 4)` is the identity on exact multiples of `1/10000`. -/
theorem pyRound4_eq_self {x : ℚ} {n : Int} (h : x * 10000 = (n : ℚ)) :
    pyRound4 x = x := by
  unfold pyRound4 roundHalfEven
  rw [h, Int.floor_intCast, sub_self, if_pos (by norm_num)]
  rw [eq_comm, eq_div_iff (by norm_num)]
  linarith [h]

/-! ## Heuristic scores (`MetricsCollector`) -/

/-- `MetricsCollector._calculate_template_adherence_score`
(src/metrics_service.py, lines 322–338).  The `placeholders_count`
argument is accepted and ignored exactly as in the source. -/
def calculate_template_adherence_score (draft_length : Nat)
    (placeholders_count : Nat) : ℚ :=
  let length_score : ℚ :=
    if draft_length < 100 then 20/100
    else if draft_length < 200 then 50/100
    else if draft_length ≤ 500 then 1
    else if draft_length ≤ 800 then 80/100
    else 60/100
  pyRound4 length_score

/-- `MetricsCollector._calculate_quality_score`
(src/metrics_service.py, lines 403–425).  `rating = some r` with `r ≠ 0`
models a Python truthy rating (`if rating:`); `edit_distance` is signed as
in Python. -/
def calculate_quality_score (action : String) (rating : Option Int)
    (edit_distance : Int) : ℚ :=
  let score : ℚ := 0
  let score :=
    if action = "approved" ∧ edit_distance = 0 then score + 60/100
    else if action = "approved" ∧ edit_distance < 50 then score + 45/100
    else if action = "approved" ∧ edit_distance < 200 then score + 30/100
    else if action = "rejected" then score + 0
    else score
  let score :=
    match rating with
    | some r => if r ≠ 0 then score + (r : ℚ) / 5 * (40/100) else score
    | none => score
  let score :=
    match rating with
    | some r => if action = "rated" ∧ r ≠ 0 then (r : ℚ) / 5 * 1 else score
    | none => score
  pyRound4 (min score 1)

/-! ## Persisted data model (`email_sessions`, `node_executions`, …) -/

/-- One row of the `email_sessions` table. -/
structure SessionRow where
  id : String
  email_hash : String
  sender_email : String := ""
  sender_name : String := ""
  subject : String := ""
  processing_started_at : Time
  processing_completed_at : Option Time := none
  total_duration_ms : Option Int := none
  status : String
  error_message : Option String := none
  classification : Option String := none
deriving Repr, DecidableEq

/-- One row of the `node_executions` table. -/
structure NodeExecRow where
  session_id : String
  node_name : String
  started_at : Time
  completed_at : Time
  duration_ms : Int
  success : Bool
  error_message : Option String := none
deriving Repr, DecidableEq

/-- One row of the `draft_generations` table (fields the core writes). -/
structure DraftGenRow where
  session_id : String
  draft_length : Nat
  final_draft_length : Option Nat := none
  context_used : Bool
  context_length : Nat
  vector_threads_used : Nat
  placeholders_count : Nat
  template_adherence_score : ℚ
deriving Repr, DecidableEq

/-- One row of the `document_extractions` table (fields the core writes). -/
structure DocExtractRow where
  session_id : String
  client_matched : Bool
  client_name : Option String := none
  documents_found : Nat := 0
  extraction_success : Bool := false
  error_reason : Option String := none
deriving Repr, DecidableEq

/-- The metrics store reachable through the connection pool. -/
structure MetricsDB where
  sessions : List SessionRow := []
  node_executions : List NodeExecRow := []
  classification_results : List (String × String) := []
  draft_generations : List DraftGenRow := []
  document_extractions : List DocExtractRow := []
deriving Repr, DecidableEq

/-- In-memory `SessionMetrics` dataclass (src/metrics_service.py, lines 18–26). -/
structure SessionMetrics where
  session_id : String
  email_hash : String
  sender_email : String := ""
  sender_name : String := ""
  subject : String := ""
  started_at : Time
deriving Repr, DecidableEq

/-- `MetricsCollector` mutable state: `db = none` models `db_pool = None`
(metrics store unavailable); `node_timers` is the Python dict keyed by
node name. -/
structure MCState where
  db : Option MetricsDB := none
  current_session : Option SessionMetrics := none
  node_timers : List (String × Time) := []
deriving Repr, DecidableEq

def sessionsOf (st : MCState) : List SessionRow :=
  match st.db with
  | none => []
  | some db => db.sessions

def nodeExecsOf (st : MCState) : List NodeExecRow :=
  match st.db with
  | none => []
  | some db => db.node_executions

/-- Inputs of one inbound email, with Python `dict.get(k, '')` defaults. -/
structure EmailDetails where
  body : String := ""
  sender_email : String := ""
  sender_name : String := ""
  subject : String := ""
deriving Repr, DecidableEq

/-- `MetricsCollector._generate_email_hash`: SHA-256 of `body|sender`,
modelled as the injective content key (see module header). -/
def generate_email_hash (email_text sender_email : String) : String :=
  email_text ++ "|" ++ sender_email

/-! ## `MetricsCollector` operations

Each `_execute_query` call site receives a `fail` flag (see module header);
`fail = true` or `db = none` makes the call return `None` in Python,
leaving the store untouched. -/

/-- `MetricsCollector.start_session` (src/metrics_service.py, lines 146–223).
`newId` is the value of `str(uuid.uuid4())`; `failCheck`/`failWrite` model
the infrastructure outcome of the SELECT and of the UPDATE/INSERT.
Returns the updated collector state and the Python return value. -/
def start_session (now : Time) (newId : String) (failCheck failWrite : Bool)
    (email : EmailDetails) (st : MCState) : MCState × Option String :=
  let email_hash := generate_email_hash email.body email.sender_email
  -- `result = self._execute_query(check_query, (email_hash,), fetch=True)`;
  -- `None` (infrastructure failure) and `[]` both fail `if result and len(result) > 0`
  let rows : List SessionRow :=
    match st.db with
    | none => []
    | some db => if failCheck then [] else db.sessions.filter (fun r => r.email_hash == email_hash)
  match rows with
  | existing :: _ =>
    if existing.status = "completed" then
      -- already processed successfully: return None to skip
      (st, none)
    else
      -- failed or still processing: reuse the existing session
      let cs : SessionMetrics :=
        { session_id := existing.id, email_hash := email_hash,
          sender_email := email.sender_email, sender_name := email.sender_name,
          subject := email.subject, started_at := now }
      let st1 := { st with current_session := some cs }
      -- UPDATE email_sessions SET status='processing', processing_started_at=now WHERE id=…
      -- (the source ignores this query's result)
      let st2 :=
        match st1.db with
        | none => st1
        | some db =>
          if failWrite then st1
          else { st1 with db := some { db with sessions := db.sessions.map (fun r =>
                   if r.id = existing.id then
                     { r with status := "processing", processing_started_at := now }
                   else r) } }
      (st2, some existing.id)
  | [] =>
    -- create new session if the email does not exist
    let cs : SessionMetrics :=
      { session_id := newId, email_hash := email_hash,
        sender_email := email.sender_email, sender_name := email.sender_name,
        subject := email.subject, started_at := now }
    let st1 := { st with current_session := some cs }
    -- INSERT INTO email_sessions (…, status) VALUES (…, 'processing')
    match st1.db with
    | none => (st1, none)
    | some db =>
      if failWrite then (st1, none)
      else
        let row : SessionRow :=
          { id := newId, email_hash := email_hash, sender_email := email.sender_email,
            sender_name := email.sender_name, subject := email.subject,
            processing_started_at := now, status := "processing" }
        ({ st1 with db := some { db with sessions := db.sessions ++ [row] } }, some newId)

/-- `MetricsCollector.get_current_session_id` (lines 225–229). -/
def get_current_session_id (st : MCState) : String :=
  match st.current_session with
  | some cs => cs.session_id
  | none => "unknown-session"

/-- `MetricsCollector.start_node_timer` (lines 231–235); Python dict
assignment overwrites a pending timer of the same name. -/
def start_node_timer (now : Time) (node_name : String) (st : MCState) : MCState :=
  match st.current_session with
  | none => st
  | some _ =>
    { st with node_timers := (node_name, now) :: st.node_timers.filter (fun p => p.1 != node_name) }

/-- `MetricsCollector.end_node_timer` (lines 237–262): a no-op without a
current session or matching timer; otherwise deletes the timer and inserts
one `node_executions` row. -/
def end_node_timer (now : Time) (failWrite : Bool) (node_name : String)
    (success : Bool) (error : Option String) (st : MCState) : MCState :=
  match st.current_session with
  | none => st
  | some cs =>
    match st.node_timers.lookup node_name with
    | none => st
    | some t0 =>
      let duration_ms : Int := now - t0
      let completed_at := now
      let started_at := completed_at - duration_ms
      let st1 := { st with node_timers := st.node_timers.filter (fun p => p.1 != node_name) }
      match st1.db with
      | none => st1
      | some db =>
        if failWrite then st1
        else { st1 with db := some { db with node_executions := db.node_executions ++
                 [{ session_id := cs.session_id, node_name := node_name,
                    started_at := started_at, completed_at := completed_at,
                    duration_ms := duration_ms, success := success,
                    error_message := error }] } }

/-- `MetricsCollector.log_classification` (lines 264–275). -/
def log_classification (failWrite : Bool) (predicted_label : String)
    (st : MCState) : MCState :=
  match st.current_session with
  | none => st
  | some cs =>
    match st.db with
    | none => st
    | some db =>
      if failWrite then st
      else { st with db := some { db with classification_results :=
               db.classification_results ++ [(cs.session_id, predicted_label)] } }

/-- `MetricsCollector.log_document_extraction` (lines 277–294). -/
def log_document_extraction (failWrite : Bool) (client_matched : Bool)
    (client_name : Option String) (documents_found : Nat)
    (extraction_success : Bool) (error_reason : Option String)
    (st : MCState) : MCState :=
  match st.current_session with
  | none => st
  | some cs =>
    match st.db with
    | none => st
    | some db =>
      if failWrite then st
      else { st with db := some { db with document_extractions :=
               db.document_extractions ++
               [{ session_id := cs.session_id, client_matched := client_matched,
                  client_name := client_name, documents_found := documents_found,
                  extraction_success := extraction_success,
                  error_reason := error_reason }] } }

/-- `MetricsCollector.log_draft_generation` (lines 296–320).  Python's
`final_draft_length or draft_length` treats both `None` and `0` as absent. -/
def log_draft_generation (failWrite : Bool) (draft_length : Nat)
    (final_draft_length : Option Nat) (context_used : Bool)
    (context_length : Nat) (vector_threads_used : Nat)
    (placeholders_count : Nat) (st : MCState) : MCState :=
  match st.current_session with
  | none => st
  | some cs =>
    let effective_length :=
      match final_draft_length with
      | some n => if n ≠ 0 then n else draft_length
      | none => draft_length
    let template_score := calculate_template_adherence_score effective_length placeholders_count
    match st.db with
    | none => st
    | some db =>
      if failWrite then st
      else { st with db := some { db with draft_generations :=
               db.draft_generations ++
               [{ session_id := cs.session_id, draft_length := draft_length,
                  final_draft_length := final_draft_length,
                  context_used := context_used, context_length := context_length,
                  vector_threads_used := vector_threads_used,
                  placeholders_count := placeholders_count,
                  template_adherence_score := template_score }] } }

/-- `MetricsCollector.complete_session` (lines 427–449).  `label` is
`final_result.get('label')`; `error = none` models a falsy Python `error`.
The in-memory handle is cleared even when the UPDATE fails. -/
def complete_session (now : Time) (failWrite : Bool) (label : Option String)
    (error : Option String) (st : MCState) : MCState :=
  match st.current_session with
  | none => st
  | some cs =>
    let total_duration : Int := now - cs.started_at
    let status := if error.isNone then "completed" else "failed"
    let st1 :=
      match st.db with
      | none => st
      | some db =>
        if failWrite then st
        else { st with db := some { db with sessions := db.sessions.map (fun (r : SessionRow) =>
                 if r.id = cs.session_id then
                   { r with processing_completed_at := some now,
                            total_duration_ms := some total_duration,
                            status := status, error_message := error,
                            classification := label }
                 else r) } }
    { st1 with current_session := none }

/-! ## Resilient connection acquisition (`MetricsCollector._get_connection`)

The `psycopg2` pool is modelled by the list of free connection ids plus the
set of connections that were closed via `putconn(conn, close=True)`.
`getconn()` hands out the head of the free list and raises when it is
empty; `valid c` tells whether `SELECT 1` succeeds on connection `c`. -/

structure PoolState where
  freeList : List Nat
  closedConns : List Nat := []
deriving Repr, DecidableEq

/-- `pool.putconn(conn, close=True)`: close `conn` and do not recycle it.
A second `putconn` of the same connection raises inside the source's bare
`except: pass`, leaving the pool unchanged. -/
def putconnClose (ps : PoolState) (c : Nat) : PoolState :=
  if c ∈ ps.closedConns then ps else { ps with closedConns := c :: ps.closedConns }

/-- Loop body of `_get_connection` (src/metrics_service.py, lines 60–81),
fuelled by the number of remaining iterations of
`for attempt in range(max_retries)`.  `conn` is the Python local that keeps
its previous value when `getconn()` itself raises.  Returns the pool, the
list of `time.sleep` durations in seconds, and the returned connection
(`none` = the final `return None`). -/
def get_connection_go (valid : Nat → Bool) (maxRetries : Nat) :
    Nat → Nat → Option Nat → PoolState → List ℚ →
    PoolState × List ℚ × Option Nat
  | 0, _, _, ps, sleeps => (ps, sleeps, none)
  | fuel + 1, attempt, conn, ps, sleeps =>
    match ps.freeList with
    | c :: rest =>
      -- conn = self.db_pool.getconn(); SELECT 1
      let ps1 : PoolState := { ps with freeList := rest }
      if valid c then
        (ps1, sleeps, some c)
      else if attempt < maxRetries - 1 then
        -- close the bad connection, back off 0.5 * (attempt + 1) seconds
        get_connection_go valid maxRetries fuel (attempt + 1) (some c)
          (putconnClose ps1 c) (sleeps ++ [(1/2) * ((attempt : ℚ) + 1)])
      else
        -- final attempt: give up; the bad connection is neither closed nor recycled
        (ps1, sleeps, none)
    | [] =>
      -- getconn() raised (pool exhausted); `conn` keeps its previous value
      if attempt < maxRetries - 1 then
        let ps2 :=
          match conn with
          | some c => putconnClose ps c
          | none => ps
        get_connection_go valid maxRetries fuel (attempt + 1) conn ps2
          (sleeps ++ [(1/2) * ((attempt : ℚ) + 1)])
      else
        (ps, sleeps, none)

/-- `MetricsCollector._get_connection` (lines 52–83): `pool = none` models
`self.db_pool` being unset. -/
def get_connection (valid : Nat → Bool) (pool : Option PoolState) :
    Option PoolState × List ℚ × Option Nat :=
  match pool with
  | none => (none, [], none)
  | some ps =>
    let r := get_connection_go valid 3 3 0 none ps []
    (some r.1, r.2.1, r.2.2)

def closedOf (p : Option PoolState) : List Nat :=
  match p with
  | none => []
  | some ps => ps.closedConns

def freeOf (p : Option PoolState) : List Nat :=
  match p with
  | none => []
  | some ps => ps.freeList

/-! ## JSON fragments parsed out of collaborator free text -/

/-- Minimal JSON value universe: exactly what `json.loads` can hand to the
call sites in `src/main.py`. -/
inductive JValue where
  | jstr : String → JValue
  | jnum : Int → JValue
  | jarr : List JValue → JValue
  | jobj : List (String × JValue) → JValue
  | jnull : JValue
deriving Repr

/-- Python `dict.get(k)`: `none` when the key is missing. -/
def jGet (fields : List (String × JValue)) (k : String) : Option JValue :=
  (fields.find? (fun p => p.1 == k)).map (fun p => p.2)

/-- Python truthiness of `dict.get(k)`'s result (`if not client_folder_id:`). -/
def jTruthy : Option JValue → Bool
  | none => false
  | some .jnull => false
  | some (.jstr s) => !s.isEmpty
  | some (.jnum n) => n != 0
  | some (.jarr xs) => !xs.isEmpty
  | some (.jobj fs) => !fs.isEmpty

/-- String content of a JSON value (the collaborator contract only produces
strings at these positions; other shapes are modelled by `""`). -/
def jAsStr : JValue → String
  | .jstr s => s
  | _ => ""

def jOptStr : Option JValue → Option String
  | some (.jstr s) => some s
  | _ => none

/-- First index at which `pat` occurs inside `s` (Python `str.find`,
`in`). -/
def findSub (s pat : List Char) : Option Nat :=
  match s with
  | [] => if pat.isEmpty then some 0 else none
  | _ :: rest =>
    if pat.isPrefixOf s then some 0 else (findSub rest pat).map (· + 1)

/-- `'folder' in f.get('mimeType', '')` and friends. -/
def containsSub (pat s : String) : Bool := (findSub s.data pat.data).isSome

/-- `re.search` of a greedy brace-to-brace pattern with `re.DOTALL`
(as in `client_gdrive_document_extraction_node`): the match, when it
exists, spans from the first left brace to the last right brace. -/
def regexBracesSearch (s : List Char) : Option (List Char) :=
  match charIndexFromStart s lbrace, charIndexFromEnd s rbrace with
  | some i, some j => if i < j then some ((s.drop i).take (j + 1 - i)) else none
  | _, _ => none

/-! ## Pipeline state and collaborator oracles -/

/-- The LangGraph `AgentState` (src/main.py, lines 34–53).  Missing keys of
the Python `TypedDict` are modelled by the defaults; `gdrive_url` can be
set to JSON `null`, hence the `Option`. -/
structure AgentState where
  email_text : String := ""
  subject : String := ""
  sender_name : String := ""
  sender_email : String := ""
  label : String := ""
  vector_query : String := ""
  relevant_threads : List String := []
  draft : String := ""
  final_draft : String := ""
  slack_message : String := ""
  notification_status : String := ""
  rejection_type : String := ""
  challenge_angles : List String := []
  draft_status : String := ""
  attio_url : String := ""
  gdrive_url : Option String := none
  client_folder_id : String := ""
  relevant_document_content : String := ""
  document_extraction_status : String := ""
deriving Repr, DecidableEq

/-- An entry of a Google Drive folder listing. -/
structure DriveFile where
  name : String := ""
  id : String := ""
  mimeType : String := ""
  webViewLink : String := ""
deriving Repr, DecidableEq

/-- One run's collaborator behaviour: each external call of the pipeline is
a fixed outcome (`.error e` models a raised exception), and `jsonLoads`
gives the semantics of `json.loads` on candidate strings (`none` models
`json.JSONDecodeError`). -/
structure Oracle where
  classifyResp : Except String String := .ok ""
  continuationResp : Except String String := .ok ""
  queryResp : Except String String := .ok ""
  fetchThreads : Except String (List String) := .ok []
  gdriveRootFolderId : Option String := none
  rootFiles : Except String (List DriveFile) := .ok []
  clientIdResp : Except String String := .ok ""
  clientFiles : Except String (List DriveFile) := .ok []
  docSelectResp : Except String String := .ok ""
  docContent : Except String String := .ok ""
  rejectionResp : Except String String := .ok ""
  softRejectionResp : Except String String := .ok ""
  draftResp : Except String String := .ok ""
  editResp : Except String String := .ok ""
  notifyMsgResp : Except String String := .ok ""
  slackStatus : Nat := 200
  gmailCreate : Except String String := .ok ""
  testingMode : Bool := false
  jsonLoads : List Char → Option JValue := fun _ => none

/-- Truthiness of `os.getenv(...)` results. -/
def envTruthy : Option String → Bool
  | none => false
  | some s => !s.isEmpty

/-! ## Graph nodes (src/main.py) -/

/-- `classify_node` (lines 57–77): the whole body is wrapped in
`try/except`, so the stage record is closed on success and on raise. -/
def classify_node (now : Time) (o : Oracle) (state : AgentState) (mc : MCState) :
    MCState × Except String String :=
  let mc := start_node_timer now "classify" mc
  match o.classifyResp with
  | .ok content =>
    let label := pyStrip content
    let mc := log_classification false label mc
    let mc := end_node_timer now false "classify" true none mc
    (mc, .ok label)
  | .error e =>
    let mc := end_node_timer now false "classify" false (some e) mc
    (mc, .error e)

/-- `generate_query_node` (lines 79–88): prompt fetch plus one collaborator
call whose content becomes `vector_query`; exceptions propagate. -/
def generate_query_node (o : Oracle) (state : AgentState) :
    Except String String :=
  o.queryResp

/-- `retrieve_threads_node` (lines 90–92). -/
def retrieve_threads_node (o : Oracle) (state : AgentState) :
    Except String (List String) :=
  o.fetchThreads

/-- The dictionary a run of `client_gdrive_document_extraction_node`
returns; `gdrive_url = some v` means the key is present with value `v`
(which may itself be JSON `null`). -/
structure DocExtractUpdates where
  document_extraction_status : String
  gdrive_url : Option (Option String) := none
  client_folder_id : Option String := none
  relevant_document_content : Option String := none
deriving Repr, DecidableEq

def applyDocUpdates (u : DocExtractUpdates) (s : AgentState) : AgentState :=
  { s with
    document_extraction_status := u.document_extraction_status,
    gdrive_url := match u.gdrive_url with | some v => v | none => s.gdrive_url,
    client_folder_id := u.client_folder_id.getD s.client_folder_id,
    relevant_document_content := u.relevant_document_content.getD s.relevant_document_content }

/-- `client_gdrive_document_extraction_node` (lines 94–256).  The body after
the env check sits in one big `try`; the `except Exception` arm closes the
stage record, but the plain early `return`s inside the `try` (no folders,
regex / JSON parse failures) do not, leaving the timer open. -/
def client_gdrive_document_extraction_node (now : Time) (o : Oracle)
    (state : AgentState) (mc : MCState) : MCState × DocExtractUpdates :=
  let mc := start_node_timer now "document_extraction" mc
  if !(envTruthy o.gdriveRootFolderId) then
    let mc := end_node_timer now false "document_extraction" false
      (some "GDRIVE_CLIENT_ROOT_FOLDER_ID not set") mc
    (mc, { document_extraction_status := "GDRIVE_CLIENT_ROOT_FOLDER_ID not set in .env file." })
  else
    match o.rootFiles with
    | .error e =>
      let mc := end_node_timer now false "document_extraction" false (some e) mc
      (mc, { document_extraction_status := "An unexpected error occurred: " ++ e })
    | .ok all_files =>
      let folder_data := all_files.filter (fun f => containsSub "folder" f.mimeType)
      if folder_data.isEmpty then
        -- early return inside the try: the open stage record is NOT closed
        (mc, { document_extraction_status := "No client folders found in the root directory." })
      else
        match o.clientIdResp with
        | .error e =>
          let mc := end_node_timer now false "document_extraction" false (some e) mc
          (mc, { document_extraction_status := "An unexpected error occurred: " ++ e })
        | .ok clientContent =>
          match regexBracesSearch clientContent.data with
          | none =>
            (mc, { document_extraction_status := "Failed to parse client identification response" })
          | some jm =>
            match o.jsonLoads jm with
            | none =>
              (mc, { document_extraction_status := "JSON parse error in client identification" })
            | some (JValue.jobj cfields) =>
              let client_folder_id := jGet cfields "folder_id"
              let gdrive_url := jOptStr (jGet cfields "link")
              let client_name := jOptStr (jGet cfields "client_name")
              if !(jTruthy client_folder_id) then
                let mc := log_document_extraction false false none 0 false
                  (some "No matching client folder found") mc
                let mc := end_node_timer now false "document_extraction" false
                  (some "No client match") mc
                (mc, { document_extraction_status := "No matching client folder found" })
              else
                match o.clientFiles with
                | .error e =>
                  let mc := end_node_timer now false "document_extraction" false (some e) mc
                  (mc, { document_extraction_status := "An unexpected error occurred: " ++ e })
                | .ok client_docs =>
                  let document_data := client_docs.filter (fun d => containsSub "document" d.mimeType)
                  if document_data.isEmpty then
                    let mc := log_document_extraction false true client_name 0 false
                      (some "No documents in folder") mc
                    let mc := end_node_timer now false "document_extraction" false
                      (some "No documents found") mc
                    (mc, { document_extraction_status := "No documents found in the client folder",
                           gdrive_url := some gdrive_url })
                  else
                    match o.docSelectResp with
                    | .error e =>
                      let mc := end_node_timer now false "document_extraction" false (some e) mc
                      (mc, { document_extraction_status := "An unexpected error occurred: " ++ e })
                    | .ok docSelContent =>
                      match regexBracesSearch docSelContent.data with
                      | none =>
                        (mc, { document_extraction_status := "Failed to parse document selection response",
                               gdrive_url := some gdrive_url })
                      | some jm2 =>
                        match o.jsonLoads jm2 with
                        | none =>
                          (mc, { document_extraction_status := "JSON parse error in document selection",
                                 gdrive_url := some gdrive_url })
                        | some (JValue.jobj dfields) =>
                          let document_id := jGet dfields "document_id"
                          if !(jTruthy document_id) then
                            let mc := log_document_extraction false true client_name
                              document_data.length false (some "No relevant document selected") mc
                            let mc := end_node_timer now false "document_extraction" false
                              (some "No relevant document") mc
                            (mc, { document_extraction_status := "No relevant document found",
                                   gdrive_url := some gdrive_url })
                          else
                            match o.docContent with
                            | .error e =>
                              let mc := end_node_timer now false "document_extraction" false (some e) mc
                              (mc, { document_extraction_status := "An unexpected error occurred: " ++ e })
                            | .ok content =>
                              let mc := log_document_extraction false true client_name
                                document_data.length true none mc
                              let mc := end_node_timer now false "document_extraction" true none mc
                              (mc, { document_extraction_status := "Success",
                                     gdrive_url := some gdrive_url,
                                     client_folder_id := some ((jGet cfields "folder_id").elim "" jAsStr),
                                     relevant_document_content := some content })
                        | some _ =>
                          -- doc_selection_data.get raised AttributeError → outer except arm
                          let mc := end_node_timer now false "document_extraction" false
                            (some "AttributeError") mc
                          (mc, { document_extraction_status := "An unexpected error occurred: AttributeError" })
            | some _ =>
              -- client_data.get raised AttributeError → outer except arm
              let mc := end_node_timer now false "document_extraction" false
                (some "AttributeError") mc
              (mc, { document_extraction_status := "An unexpected error occurred: AttributeError" })

/-- `draft_node` (lines 258–288).  No `try/except` here: when the
collaborator raises, the exception propagates and neither
`log_draft_generation` nor `end_node_timer` runs. -/
def draft_node (now : Time) (o : Oracle) (state : AgentState) (mc : MCState) :
    MCState × Except String String :=
  let mc := start_node_timer now "draft_generation" mc
  let context_used := !state.relevant_document_content.isEmpty
  let context_length := state.relevant_document_content.length
  match o.draftResp with
  | .error e => (mc, .error e)
  | .ok draft =>
    let placeholders_count := countChar draft.data '[' + countChar draft.data lbrace
    let mc := log_draft_generation false draft.length none context_used context_length
      state.relevant_threads.length placeholders_count mc
    let mc := end_node_timer now false "draft_generation" true none mc
    (mc, .ok draft)

/-- `rejection_strategy_node` (lines 290–311): extracts the last
brace-delimited substring, feeds it to `json.loads`, and falls back to
`("Hard Rejection", [])` on any exception inside the `try`. -/
def rejection_strategy_node (o : Oracle) (state : AgentState) :
    Except String (String × List String) :=
  match o.rejectionResp with
  | .error e => .error e
  | .ok response_content =>
    let cs := response_content.data
    let json_start := pyRfind cs lbrace
    let json_end := pyRfind cs rbrace + 1
    let json_str := pySlice cs json_start json_end
    .ok (match o.jsonLoads json_str with
      | some (JValue.jobj fields) =>
        ((jGet fields "rejection_type").elim "Hard Rejection" jAsStr,
         match jGet fields "angles" with
         | some (JValue.jarr xs) => xs.map jAsStr
         | _ => [])
      | _ => ("Hard Rejection", []))

/-- `soft_rejection_drafting_node` (lines 313–336): drafts a challenge and
strips an enclosing `<response>…</response>` block when both tags occur. -/
def soft_rejection_drafting_node (o : Oracle) (state : AgentState) :
    Except String String :=
  match o.softRejectionResp with
  | .error e => .error e
  | .ok draft =>
    let s := draft.data
    let openTag := "<response>".data
    let closeTag := "</response>".data
    .ok (match findSub s openTag, findSub s closeTag with
      | some i, some j =>
        ⟨pyStripList (pySlice s ((i : Int) + openTag.length) (j : Int))⟩
      | _, _ => draft)

/-- `edit_draft_node` (lines 338–345). -/
def edit_draft_node (o : Oracle) (state : AgentState) : Except String String :=
  o.editResp

/-- `slack_notification_node` (lines 361–391): skipped in testing mode,
otherwise one collaborator call for the summary and one dispatch call. -/
def slack_notification_node (o : Oracle) (state : AgentState) (mc : MCState) :
    Except String String :=
  if o.testingMode then .ok "SKIPPED (Testing Mode)"
  else
    match o.notifyMsgResp with
    | .error e => .error e
    | .ok _ => .ok ("Enhanced Slack notification sent (Status: " ++ toString o.slackStatus ++ ")")

/-- `create_gmail_draft_node` (lines 393–407): failures are caught and
summarised as a status string (`str(e)[:100]`). -/
def create_gmail_draft_node (o : Oracle) (state : AgentState) : String :=
  if o.testingMode then "SKIPPED (Testing Mode)"
  else
    match o.gmailCreate with
    | .ok status => status
    | .error e => "Failed: " ++ (⟨e.data.take 100⟩ : String) ++ "..."

/-- `should_continue_processing` (lines 412–416). -/
def should_continue_processing (o : Oracle) (state : AgentState) :
    Except String String :=
  match o.continuationResp with
  | .error e => .error e
  | .ok content =>
    .ok (if pyLower (pyStrip content) = "no" then "end" else "continue")

/-- `rejection_router` (lines 418–423). -/
def rejection_router (state : AgentState) : String :=
  if state.label = "Identity-based rejection"
     ∨ state.label = "Topic-based rejection"
     ∨ state.label = "Qualification-based rejection"
  then "handle_rejection" else "standard_pipeline"

/-! ## Graph wiring (src/main.py, lines 426–471) -/

inductive GNode where
  | classify | rejection_routing | gen_query | retrieve
  | client_gdrive_document_extraction | generate_draft | edit_draft
  | rejection_strategy | soft_rejection_drafting | slack_notification
  | create_gmail_draft | terminal
deriving Repr, DecidableEq

/-- The unconditional `builder.add_edge` wiring. -/
def graph_static_edge : GNode → Option GNode
  | .rejection_strategy => some .gen_query
  | .soft_rejection_drafting => some .edit_draft
  | .gen_query => some .retrieve
  | .retrieve => some .client_gdrive_document_extraction
  | .client_gdrive_document_extraction => some .generate_draft
  | .generate_draft => some .edit_draft
  | .edit_draft => some .slack_notification
  | .slack_notification => some .create_gmail_draft
  | .create_gmail_draft => some .terminal
  | _ => none

/-- Result of one `graph.invoke`: final collector state, the nodes that
started executing (in order), and the final `AgentState` or the exception
that aborted the run. -/
structure RunResult where
  mc : MCState
  executed : List GNode
  result : Except String AgentState
deriving Repr

/-- The path `gen_query → retrieve → client_gdrive_document_extraction →
generate_draft → edit_draft → slack_notification → create_gmail_draft`
shared by both branches. -/
def run_from_gen_query (now : Time) (o : Oracle) (state : AgentState)
    (mc : MCState) (execAcc : List GNode) : RunResult :=
  match generate_query_node o state with
  | .error e => ⟨mc, execAcc ++ [.gen_query], .error e⟩
  | .ok q =>
    let state := { state with vector_query := q }
    match retrieve_threads_node o state with
    | .error e => ⟨mc, execAcc ++ [.gen_query, .retrieve], .error e⟩
    | .ok threads =>
      let state := { state with relevant_threads := threads }
      let du := client_gdrive_document_extraction_node now o state mc
      let mc := du.1
      let state := applyDocUpdates du.2 state
      let dr := draft_node now o state mc
      let mc := dr.1
      match dr.2 with
      | .error e =>
        ⟨mc, execAcc ++ [.gen_query, .retrieve, .client_gdrive_document_extraction, .generate_draft], .error e⟩
      | .ok draft =>
        let state := { state with draft := draft }
        match edit_draft_node o state with
        | .error e =>
          ⟨mc, execAcc ++ [.gen_query, .retrieve, .client_gdrive_document_extraction,
            .generate_draft, .edit_draft], .error e⟩
        | .ok fd =>
          let state := { state with final_draft := fd }
          match slack_notification_node o state mc with
          | .error e =>
            ⟨mc, execAcc ++ [.gen_query, .retrieve, .client_gdrive_document_extraction,
              .generate_draft, .edit_draft, .slack_notification], .error e⟩
          | .ok ns =>
            let state := { state with notification_status := ns }
            let state := { state with draft_status := create_gmail_draft_node o state }
            ⟨mc, execAcc ++ [.gen_query, .retrieve, .client_gdrive_document_extraction,
              .generate_draft, .edit_draft, .slack_notification, .create_gmail_draft], .ok state⟩

/-- `graph.invoke`: entry point `classify`, then the conditional edges
`should_continue_processing` and `rejection_router`, then the shared tail. -/
def graph_invoke (now : Time) (o : Oracle) (s0 : AgentState) (mc : MCState) :
    RunResult :=
  let c := classify_node now o s0 mc
  let mc := c.1
  match c.2 with
  | .error e => ⟨mc, [.classify], .error e⟩
  | .ok label =>
    let s1 := { s0 with label := label }
    match should_continue_processing o s1 with
    | .error e => ⟨mc, [.classify], .error e⟩
    | .ok route =>
      if route = "end" then ⟨mc, [.classify], .ok s1⟩
      else if rejection_router s1 = "handle_rejection" then
        match rejection_strategy_node o s1 with
        | .error e => ⟨mc, [.classify, .rejection_routing, .rejection_strategy], .error e⟩
        | .ok rc =>
          run_from_gen_query now o
            { s1 with rejection_type := rc.1, challenge_angles := rc.2 } mc
            [.classify, .rejection_routing, .rejection_strategy]
      else
        run_from_gen_query now o s1 mc [.classify, .rejection_routing]

/-! ## `run_assistant.process_email` (run_assistant.py, lines 16–69) -/

/-- `process_email`: starts the metrics session, invokes the graph
(unconditionally — the `None` skip signal is never consulted), and
completes the session with the result or the caught exception.  Returns
the final collector state, the session id `start_session` returned, and
the list of executed graph nodes. -/
def process_email (now : Time) (newId : String) (o : Oracle)
    (email : EmailDetails) (st : MCState) :
    MCState × Option String × List GNode :=
  let s := start_session now newId false false email st
  let st := s.1
  let session_id := s.2
  let state0 : AgentState :=
    { email_text := email.body, subject := email.subject,
      sender_name := email.sender_name, sender_email := email.sender_email }
  let rr := graph_invoke now o state0 st
  match rr.result with
  | .ok result =>
    (complete_session now false (some result.label) none rr.mc, session_id, rr.executed)
  | .error e =>
    (complete_session now false none (some e) rr.mc, session_id, rr.executed)

/-! # Claims -/

/-! ## C8 — template adherence buckets -/

/-- C8: for every final draft length L ≥ 0, the template-adherence score is
exactly 0.20 for L < 100, 0.50 for 100 ≤ L < 200, 1.00 for 200 ≤ L ≤ 500,
0.80 for 500 < L ≤ 800 and 0.60 for L > 800. -/
theorem C8_template_adherence_buckets (L p : Nat) :
    (L < 100 → calculate_template_adherence_score L p = 20/100)
    ∧ (100 ≤ L → L < 200 → calculate_template_adherence_score L p = 50/100)
    ∧ (200 ≤ L → L ≤ 500 → calculate_template_adherence_score L p = 1)
    ∧ (500 < L → L ≤ 800 → calculate_template_adherence_score L p = 80/100)
    ∧ (800 < L → calculate_template_adherence_score L p = 60/100) := by
  have e1 : pyRound4 (20/100) = 20/100 := by norm_num [pyRound4, roundHalfEven]
  have e2 : pyRound4 (50/100) = 50/100 := by norm_num [pyRound4, roundHalfEven]
  have e3 : pyRound4 1 = 1 := by norm_num [pyRound4, roundHalfEven]
  have e4 : pyRound4 (80/100) = 80/100 := by norm_num [pyRound4, roundHalfEven]
  have e5 : pyRound4 (60/100) = 60/100 := by norm_num [pyRound4, roundHalfEven]
  simp only [calculate_template_adherence_score]
  refine ⟨fun h => ?_, fun h1 h2 => ?_, fun h1 h2 => ?_, fun h1 h2 => ?_, fun h => ?_⟩
  · rw [if_pos h]; exact e1
  · rw [if_neg (by omega), if_pos h2]; exact e2
  · rw [if_neg (by omega), if_neg (by omega), if_pos h2]; exact e3
  · rw [if_neg (by omega), if_neg (by omega), if_neg (by omega), if_pos h2]; exact e4
  · rw [if_neg (by omega), if_neg (by omega), if_neg (by omega), if_neg (by omega)]; exact e5

/-- Witness for C8 at the spec's own test lengths 450, 50 and 900. -/
theorem C8_template_adherence_buckets_witness :
    calculate_template_adherence_score 450 0 = 1
    ∧ calculate_template_adherence_score 50 0 = 20/100
    ∧ calculate_template_adherence_score 900 3 = 60/100 :=
  ⟨(C8_template_adherence_buckets 450 0).2.2.1 (by omega) (by omega),
   (C8_template_adherence_buckets 50 0).1 (by omega),
   (C8_template_adherence_buckets 900 3).2.2.2.2 (by omega)⟩

/-! ## C7 — composite quality score -/

/-- The claim's "(rating/5) × 0.40 when a rating is present". -/
def ratingContribution : Option Int → ℚ
  | some r => (r : ℚ) / 5 * (40/100)
  | none => 0

set_option maxHeartbeats 1600000 in
/-- C7: composite quality score.  For action `approved` the base is 0.60 at
edit distance 0, 0.45 for 0 < d < 50, 0.30 for 50 ≤ d < 200, otherwise 0,
plus the rating contribution; `rejected` contributes only the rating part;
`rated` with a rating present yields exactly rating/5; and the final score
lies in [0, 1]. -/
theorem C7_quality_score (action : String) (rating : Option Int) (ed : Int)
    (hrat : ∀ r, rating = some r → 1 ≤ r ∧ r ≤ 5) (hed : 0 ≤ ed) :
    (action = "approved" → ed = 0 →
      calculate_quality_score action rating ed = 60/100 + ratingContribution rating)
    ∧ (action = "approved" → 0 < ed → ed < 50 →
      calculate_quality_score action rating ed = 45/100 + ratingContribution rating)
    ∧ (action = "approved" → 50 ≤ ed → ed < 200 →
      calculate_quality_score action rating ed = 30/100 + ratingContribution rating)
    ∧ (action = "approved" → 200 ≤ ed →
      calculate_quality_score action rating ed = ratingContribution rating)
    ∧ (action = "rejected" →
      calculate_quality_score action rating ed = ratingContribution rating)
    ∧ (∀ r, rating = some r → action = "rated" →
      calculate_quality_score action rating ed = (r : ℚ) / 5)
    ∧ (0 ≤ calculate_quality_score action rating ed
       ∧ calculate_quality_score action rating ed ≤ 1) := by
  refine ⟨fun h1 h2 => ?_, fun h1 h2 h3 => ?_, fun h1 h2 h3 => ?_, fun h1 h2 => ?_,
    fun h1 => ?_, fun r hr h1 => ?_, ?_, ?_⟩
  · -- approved, ed = 0
    subst h1; subst h2
    cases hr : rating with
    | none =>
      simp only [calculate_quality_score, ratingContribution]
      split_ifs <;>
        first
          | (exfalso; simp_all; done)
          | (exfalso; simp_all; omega)
          | (rw [min_eq_left (by norm_num),
               pyRound4_eq_self (n := 6000) (by norm_num)]; ring)
    | some r =>
      have h1 := (hrat r hr).1
      have h5 := (hrat r hr).2
      have h1q : (1 : ℚ) ≤ (r : ℚ) := by exact_mod_cast h1
      have h5q : (r : ℚ) ≤ 5 := by exact_mod_cast h5
      simp only [calculate_quality_score, ratingContribution]
      split_ifs <;>
        first
          | (exfalso; simp_all; done)
          | (exfalso; simp_all; omega)
          | (rw [min_eq_left (by nlinarith),
               pyRound4_eq_self (n := 6000 + 800 * r) (by push_cast; ring)]; ring)
  · -- approved, 0 < ed < 50
    subst h1
    cases hr : rating with
    | none =>
      simp only [calculate_quality_score, ratingContribution]
      split_ifs <;>
        first
          | (exfalso; simp_all; done)
          | (exfalso; simp_all; omega)
          | (rw [min_eq_left (by norm_num),
               pyRound4_eq_self (n := 4500) (by norm_num)]; ring)
    | some r =>
      have h1 := (hrat r hr).1
      have h5 := (hrat r hr).2
      have h1q : (1 : ℚ) ≤ (r : ℚ) := by exact_mod_cast h1
      have h5q : (r : ℚ) ≤ 5 := by exact_mod_cast h5
      simp only [calculate_quality_score, ratingContribution]
      split_ifs <;>
        first
          | (exfalso; simp_all; done)
          | (exfalso; simp_all; omega)
          | (rw [min_eq_left (by nlinarith),
               pyRound4_eq_self (n := 4500 + 800 * r) (by push_cast; ring)]; ring)
  · -- approved, 50 ≤ ed < 200
    subst h1
    cases hr : rating with
    | none =>
      simp only [calculate_quality_score, ratingContribution]
      split_ifs <;>
        first
          | (exfalso; simp_all; done)
          | (exfalso; simp_all; omega)
          | (rw [min_eq_left (by norm_num),
               pyRound4_eq_self (n := 3000) (by norm_num)]; ring)
    | some r =>
      have h1 := (hrat r hr).1
      have h5 := (hrat r hr).2
      have h1q : (1 : ℚ) ≤ (r : ℚ) := by exact_mod_cast h1
      have h5q : (r : ℚ) ≤ 5 := by exact_mod_cast h5
      simp only [calculate_quality_score, ratingContribution]
      split_ifs <;>
        first
          | (exfalso; simp_all; done)
          | (exfalso; simp_all; omega)
          | (rw [min_eq_left (by nlinarith),
               pyRound4_eq_self (n := 3000 + 800 * r) (by push_cast; ring)]; ring)
  · -- approved, 200 ≤ ed
    subst h1
    cases hr : rating with
    | none =>
      simp only [calculate_quality_score, ratingContribution]
      split_ifs <;>
        first
          | (exfalso; simp_all; done)
          | (exfalso; simp_all; omega)
          | (rw [min_eq_left (by norm_num),
               pyRound4_eq_self (n := 0) (by norm_num)]; try ring)
    | some r =>
      have h1 := (hrat r hr).1
      have h5 := (hrat r hr).2
      have h1q : (1 : ℚ) ≤ (r : ℚ) := by exact_mod_cast h1
      have h5q : (r : ℚ) ≤ 5 := by exact_mod_cast h5
      simp only [calculate_quality_score, ratingContribution]
      split_ifs <;>
        first
          | (exfalso; simp_all; done)
          | (exfalso; simp_all; omega)
          | (rw [min_eq_left (by nlinarith),
               pyRound4_eq_self (n := 800 * r) (by push_cast; ring)]; ring)
  · -- rejected
    subst h1
    cases hr : rating with
    | none =>
      simp only [calculate_quality_score, ratingContribution]
      split_ifs <;>
        first
          | (exfalso; simp_all; done)
          | (exfalso; simp_all; omega)
          | (rw [min_eq_left (by norm_num),
               pyRound4_eq_self (n := 0) (by norm_num)]; try ring)
    | some r =>
      have h1 := (hrat r hr).1
      have h5 := (hrat r hr).2
      have h1q : (1 : ℚ) ≤ (r : ℚ) := by exact_mod_cast h1
      have h5q : (r : ℚ) ≤ 5 := by exact_mod_cast h5
      simp only [calculate_quality_score, ratingContribution]
      split_ifs <;>
        first
          | (exfalso; simp_all; done)
          | (exfalso; simp_all; omega)
          | (rw [min_eq_left (by nlinarith),
               pyRound4_eq_self (n := 800 * r) (by push_cast; ring)]; ring)
  · -- rated with a rating present: exactly rating/5
    subst h1; subst hr
    have h1 := (hrat r rfl).1
    have h5 := (hrat r rfl).2
    have h1q : (1 : ℚ) ≤ (r : ℚ) := by exact_mod_cast h1
    have h5q : (r : ℚ) ≤ 5 := by exact_mod_cast h5
    simp only [calculate_quality_score]
    split_ifs <;>
      first
        | (exfalso; simp_all; done)
        | (exfalso; simp_all; omega)
        | (rw [min_eq_left (by nlinarith),
             pyRound4_eq_self (n := 2000 * r) (by push_cast; ring)]; ring)
  · -- 0 ≤ score
    cases hr : rating with
    | none =>
      simp only [calculate_quality_score]
      apply pyRound4_nonneg
      refine le_min ?_ (by norm_num)
      split_ifs <;> norm_num
    | some r =>
      have h1 := (hrat r hr).1
      have h1q : (1 : ℚ) ≤ (r : ℚ) := by exact_mod_cast h1
      simp only [calculate_quality_score]
      apply pyRound4_nonneg
      refine le_min ?_ (by norm_num)
      split_ifs <;> nlinarith
  · -- score ≤ 1
    cases hr : rating with
    | none =>
      simp only [calculate_quality_score]
      apply pyRound4_le_one
      exact min_le_right _ _
    | some r =>
      simp only [calculate_quality_score]
      apply pyRound4_le_one
      exact min_le_right _ _


/-- Witness for C7 at the spec's own probe points: approved with zero edit
distance and no rating gives 0.60, a bare rating of 5 gives 1.00, and
rejected without rating gives 0. -/
theorem C7_quality_score_witness :
    calculate_quality_score "approved" none 0 = 60/100
    ∧ calculate_quality_score "rated" (some 5) 0 = 1
    ∧ calculate_quality_score "rejected" none 7 = 0 := by
  have h1 := (C7_quality_score "approved" none 0 (by intro r h; cases h) (by norm_num)).1
    rfl rfl
  have h2 := ((C7_quality_score "rated" (some 5) 0
    (by intro r h; injection h with h; omega) (by norm_num)).2.2.2.2.2.1) 5 rfl rfl
  have h3 := ((C7_quality_score "rejected" none 7 (by intro r h; cases h)
    (by norm_num)).2.2.2.2.1) rfl
  refine ⟨?_, ?_, ?_⟩
  · rw [h1]; simp [ratingContribution]
  · rw [h2]; norm_num
  · rw [h3]; simp [ratingContribution]

/-! ## C10 — the `None` return of `start_session` is ambiguous -/

def c10Email : EmailDetails :=
  { body := "hello body", sender_email := "a@b.c" }

/-- A session row for `c10Email`'s fingerprint that already completed. -/
def c10CompletedRow : SessionRow :=
  { id := "sess-done", email_hash := generate_email_hash "hello body" "a@b.c",
    processing_started_at := 0, status := "completed" }

/-- C10: `start_session` returns the same `None` signal in three distinct
situations — a prior session with the fingerprint is completed (intended
skip), the persistence pool is unavailable, and the insert of a new
session fails after connection retries — so the return value alone cannot
distinguish the completed-skip from a persistence failure. -/
theorem C10_start_session_none_ambiguous :
    (start_session 50 "fresh-1" false false c10Email
      { db := some { sessions := [c10CompletedRow] } }).2 = none
    ∧ (start_session 50 "fresh-2" false false c10Email { db := none }).2 = none
    ∧ (start_session 50 "fresh-3" false true c10Email { db := some {} }).2 = none := by
  refine ⟨?_, ?_, ?_⟩ <;> rfl

/-! ## C6 — validated, retrying connection acquisition -/

theorem putconnClose_freeList (q : PoolState) (c : Nat) :
    (putconnClose q c).freeList = q.freeList := by
  unfold putconnClose; split <;> rfl

theorem mem_putconnClose_self (q : PoolState) (c : Nat) :
    c ∈ (putconnClose q c).closedConns := by
  unfold putconnClose
  split
  · assumption
  · exact List.mem_cons_self _ _

theorem mem_putconnClose_of_mem (q : PoolState) (c x : Nat)
    (h : x ∈ q.closedConns) : x ∈ (putconnClose q c).closedConns := by
  unfold putconnClose
  split
  · exact h
  · exact List.mem_cons_of_mem _ h

theorem not_mem_putconnClose (q : PoolState) (c x : Nat) (hx : x ≠ c)
    (h : x ∉ q.closedConns) : x ∉ (putconnClose q c).closedConns := by
  unfold putconnClose
  split
  · exact h
  · intro hm
    rcases List.mem_cons.mp hm with h1 | h1
    · exact hx h1
    · exact h h1

/-- A connection handed out by the retry loop passed its `SELECT 1`
validation and came from the free list. -/
theorem get_connection_go_some_valid (valid : Nat → Bool) (maxR : Nat) :
    ∀ fuel attempt conn ps sleeps c ps2 sl2,
      get_connection_go valid maxR fuel attempt conn ps sleeps = (ps2, sl2, some c) →
      valid c = true ∧ c ∈ ps.freeList := by
  intro fuel
  induction fuel with
  | zero =>
    intro attempt conn ps sleeps c ps2 sl2 h
    simp [get_connection_go] at h
  | succ n ih =>
    intro attempt conn ps sleeps c ps2 sl2 h
    cases hfl : ps.freeList with
    | cons c0 rest =>
      simp only [get_connection_go, hfl] at h
      by_cases hv : valid c0 = true
      · rw [if_pos hv] at h
        simp only [Prod.mk.injEq, Option.some.injEq] at h
        obtain ⟨-, -, hc⟩ := h
        subst hc
        exact ⟨hv, List.mem_cons_self _ _⟩
      · rw [if_neg hv] at h
        by_cases ha : attempt < maxR - 1
        · rw [if_pos ha] at h
          have hrec := ih _ _ _ _ _ _ _ h
          refine ⟨hrec.1, ?_⟩
          have hmem := hrec.2
          rw [putconnClose_freeList] at hmem
          exact List.mem_cons_of_mem _ hmem
        · rw [if_neg ha] at h
          simp at h
    | nil =>
      simp only [get_connection_go, hfl] at h
      by_cases ha : attempt < maxR - 1
      · rw [if_pos ha] at h
        have hrec := ih _ _ _ _ _ _ _ h
        have hmem := hrec.2
        cases conn with
        | none =>
          rw [hfl] at hmem
          cases hmem
        | some c0 =>
          rw [putconnClose_freeList, hfl] at hmem
          cases hmem
      · rw [if_neg ha] at h
        simp at h

/-- Counterexample to C6 as stated: acquiring from a pool of connections
1, 2, 3 that all fail validation returns the unavailable signal after the
two documented backoffs, closes the failed connections of attempts 1 and
2, but the connection of the final failed attempt (id 3) is neither closed
nor recycled — so not every failed connection is discarded by closing. -/
theorem C6_counterexample :
    (get_connection (fun _ => false) (some { freeList := [1, 2, 3] })).2.2 = none
    ∧ (get_connection (fun _ => false) (some { freeList := [1, 2, 3] })).2.1 = [1/2, 1]
    ∧ closedOf (get_connection (fun _ => false) (some { freeList := [1, 2, 3] })).1 = [2, 1]
    ∧ freeOf (get_connection (fun _ => false) (some { freeList := [1, 2, 3] })).1 = []
    ∧ 3 ∉ closedOf (get_connection (fun _ => false) (some { freeList := [1, 2, 3] })).1 := by
  refine ⟨rfl, ?_, rfl, rfl, ?_⟩
  · show [(1/2 : ℚ) * (0 + 1), 1/2 * (1 + 1)] = [1/2, 1]
    norm_num
  · decide

/-- C6 amended: every acquire validates the connection with `SELECT 1`
before returning it (a returned connection passed validation and came from
the free list); on validation failure the acquire retries up to 3 attempts
with backoffs 0.5 s × attempt; the failed connections of all but the final
attempt are closed and no failed connection is ever returned to the free
list; after exhausting the retries the acquire returns the unavailable
signal — but the final attempt's connection is abandoned without being
closed. -/
theorem C6_acquire_amended (valid : Nat → Bool) (c1 c2 c3 : Nat)
    (rest : List Nat) (ps : PoolState)
    (hfl : ps.freeList = c1 :: c2 :: c3 :: rest)
    (hnodup : ps.freeList.Nodup)
    (hv1 : valid c1 = false) (hv2 : valid c2 = false) (hv3 : valid c3 = false)
    (hcl : c3 ∉ ps.closedConns) :
    (∀ valid2 : Nat → Bool, ∀ ps2 c,
      (get_connection valid2 (some ps2)).2.2 = some c →
      valid2 c = true ∧ c ∈ ps2.freeList)
    ∧ (get_connection valid (some ps)).2.2 = none
    ∧ (get_connection valid (some ps)).2.1 = [1/2, 1]
    ∧ c1 ∈ closedOf (get_connection valid (some ps)).1
    ∧ c2 ∈ closedOf (get_connection valid (some ps)).1
    ∧ c3 ∉ closedOf (get_connection valid (some ps)).1
    ∧ c1 ∉ freeOf (get_connection valid (some ps)).1
    ∧ c2 ∉ freeOf (get_connection valid (some ps)).1
    ∧ c3 ∉ freeOf (get_connection valid (some ps)).1 := by
  have hval : ∀ valid2 : Nat → Bool, ∀ ps2 c,
      (get_connection valid2 (some ps2)).2.2 = some c →
      valid2 c = true ∧ c ∈ ps2.freeList := by
    intro valid2 ps2 c h
    simp only [get_connection] at h
    refine get_connection_go_some_valid valid2 3 3 0 none ps2 [] c
      (get_connection_go valid2 3 3 0 none ps2 []).1
      (get_connection_go valid2 3 3 0 none ps2 []).2.1 ?_
    rw [← h]
  -- distinctness of the three pooled connections
  rw [hfl] at hnodup
  have hd12 : c1 ≠ c2 := by
    intro h; subst h
    exact (List.nodup_cons.mp hnodup).1 (List.mem_cons_self _ _)
  have hd13 : c1 ≠ c3 := by
    intro h; subst h
    exact (List.nodup_cons.mp hnodup).1 (List.mem_cons_of_mem _ (List.mem_cons_self _ _))
  have hd23 : c2 ≠ c3 := by
    intro h; subst h
    have h2 := (List.nodup_cons.mp hnodup).2
    exact (List.nodup_cons.mp h2).1 (List.mem_cons_self _ _)
  have h1r : c1 ∉ rest := by
    intro h
    exact (List.nodup_cons.mp hnodup).1
      (List.mem_cons_of_mem _ (List.mem_cons_of_mem _ h))
  have h2r : c2 ∉ rest := by
    intro h
    have h2 := (List.nodup_cons.mp hnodup).2
    exact (List.nodup_cons.mp h2).1 (List.mem_cons_of_mem _ h)
  have h3r : c3 ∉ rest := by
    intro h
    have h2 := (List.nodup_cons.mp hnodup).2
    have h3 := (List.nodup_cons.mp h2).2
    exact (List.nodup_cons.mp h3).1 h
  -- run the three failing attempts symbolically
  refine ⟨hval, ?_, ?_, ?_, ?_, ?_, ?_, ?_, ?_⟩
  · simp only [get_connection, get_connection_go, hfl, hv1, hv2, hv3,
      putconnClose_freeList, Bool.false_eq_true, ite_true, ite_false,
      Nat.reduceAdd, Nat.reduceSub, Nat.reduceLT]
  · simp only [get_connection, get_connection_go, hfl, hv1, hv2, hv3,
      putconnClose_freeList, Bool.false_eq_true, ite_true, ite_false,
      Nat.reduceAdd, Nat.reduceSub, Nat.reduceLT]
    norm_num
  · simp only [get_connection, get_connection_go, hfl, hv1, hv2, hv3,
      putconnClose_freeList, Bool.false_eq_true, ite_true, ite_false,
      Nat.reduceAdd, Nat.reduceSub, Nat.reduceLT, closedOf]
    exact mem_putconnClose_of_mem _ _ _ (mem_putconnClose_self _ _)
  · simp only [get_connection, get_connection_go, hfl, hv1, hv2, hv3,
      putconnClose_freeList, Bool.false_eq_true, ite_true, ite_false,
      Nat.reduceAdd, Nat.reduceSub, Nat.reduceLT, closedOf]
    exact mem_putconnClose_self _ _
  · simp only [get_connection, get_connection_go, hfl, hv1, hv2, hv3,
      putconnClose_freeList, Bool.false_eq_true, ite_true, ite_false,
      Nat.reduceAdd, Nat.reduceSub, Nat.reduceLT, closedOf]
    exact not_mem_putconnClose _ _ _ (Ne.symm hd23)
      (not_mem_putconnClose _ _ _ (Ne.symm hd13) hcl)
  · simp only [get_connection, get_connection_go, hfl, hv1, hv2, hv3,
      putconnClose_freeList, Bool.false_eq_true, ite_true, ite_false,
      Nat.reduceAdd, Nat.reduceSub, Nat.reduceLT, freeOf]
    exact h1r
  · simp only [get_connection, get_connection_go, hfl, hv1, hv2, hv3,
      putconnClose_freeList, Bool.false_eq_true, ite_true, ite_false,
      Nat.reduceAdd, Nat.reduceSub, Nat.reduceLT, freeOf]
    exact h2r
  · simp only [get_connection, get_connection_go, hfl, hv1, hv2, hv3,
      putconnClose_freeList, Bool.false_eq_true, ite_true, ite_false,
      Nat.reduceAdd, Nat.reduceSub, Nat.reduceLT, freeOf]
    exact h3r

/-- Witness for the amended C6 at the concrete failing pool `[1, 2, 3]`. -/
theorem C6_acquire_amended_witness :
    1 ∈ closedOf (get_connection (fun _ => false) (some { freeList := [1, 2, 3] })).1
    ∧ 3 ∉ closedOf (get_connection (fun _ => false) (some { freeList := [1, 2, 3] })).1 :=
  ⟨(C6_acquire_amended (fun _ => false) 1 2 3 [] { freeList := [1, 2, 3] }
      rfl (by decide) rfl rfl rfl (by decide)).2.2.2.1,
   (C6_acquire_amended (fun _ => false) 1 2 3 [] { freeList := [1, 2, 3] }
      rfl (by decide) rfl rfl rfl (by decide)).2.2.2.2.2.1⟩

/-! ## C5 — RejectionStrategy parse-failure fallback -/

/-- C5: for every collaborator response from which no structured JSON
result can be parsed (the brace-delimited candidate substring does not
parse), the RejectionStrategy stage returns rejection type
"Hard Rejection" with an empty challenge-angle list and does not raise,
and the static graph edge always passes control to GenerateQuery. -/
theorem C5_rejection_strategy_fallback (o : Oracle) (state : AgentState)
    (resp : String) (hresp : o.rejectionResp = .ok resp)
    (hparse : o.jsonLoads (pySlice resp.data (pyRfind resp.data lbrace)
      (pyRfind resp.data rbrace + 1)) = none) :
    rejection_strategy_node o state = .ok ("Hard Rejection", [])
    ∧ graph_static_edge GNode.rejection_strategy = some GNode.gen_query := by
  constructor
  · simp only [rejection_strategy_node, hresp, hparse]
  · rfl

/-- Witness for C5 on a response with no JSON object at all. -/
theorem C5_rejection_strategy_fallback_witness :
    rejection_strategy_node { rejectionResp := .ok "no json here" } {} =
      .ok ("Hard Rejection", [])
    ∧ graph_static_edge GNode.rejection_strategy = some GNode.gen_query :=
  C5_rejection_strategy_fallback { rejectionResp := .ok "no json here" } {}
    "no json here" rfl rfl

/-! ## C3 — stage-execution records are not always closed -/

def c3Session : SessionMetrics :=
  { session_id := "sess-open", email_hash := "h", started_at := 0 }

def c3Mc : MCState :=
  { db := some {}, current_session := some c3Session, node_timers := [] }

def c3Oracle : Oracle := { draftResp := .error "llm unavailable" }

/-- C3 evaluated at the failing input: when the draft-generation
collaborator raises, `draft_node` finishes (by raising) with the
`(session, draft_generation)` record still open — the timer survives and
no stage-execution row is ever written, because `draft_node` lacks the
`try/except` closing logic that `classify_node` has (the
document-extraction stage's early returns skip `end_node_timer` in the
same way). -/
theorem C3_draft_node_leaves_record_open :
    (draft_node 5 c3Oracle { email_text := "hi" } c3Mc).2 = .error "llm unavailable"
    ∧ ((draft_node 5 c3Oracle { email_text := "hi" } c3Mc).1).node_timers.lookup
        "draft_generation" = some 5
    ∧ nodeExecsOf (draft_node 5 c3Oracle { email_text := "hi" } c3Mc).1 = [] := by
  refine ⟨rfl, ?_, rfl⟩
  rfl

/-! ## C2 — a completed session is still reprocessed by the caller -/

def c2Email : EmailDetails :=
  { body := "We do not allow guests", sender_email := "host@show.org",
    sender_name := "Host", subject := "Re: booking" }

def c2Row : SessionRow :=
  { id := "sess-c2",
    email_hash := generate_email_hash "We do not allow guests" "host@show.org",
    processing_started_at := 0, status := "completed" }

def c2Db : MetricsDB := { sessions := [c2Row] }

def c2Oracle : Oracle :=
  { classifyResp := .ok "No Guests", continuationResp := .ok "No",
    testingMode := true }

/-- C2 evaluated at the failing input: resubmitting an input whose
fingerprint maps to a completed session makes `start_session` return the
skip signal and no new rows are written — but `process_email` never
consults the signal, so the graph is still invoked and the Classify stage
(a pipeline stage with an LLM call) executes. -/
theorem C2_completed_session_still_reprocessed :
    (process_email 100 "fresh-id" c2Oracle c2Email { db := some c2Db }).2.1 = none
    ∧ (process_email 100 "fresh-id" c2Oracle c2Email { db := some c2Db }).2.2 =
        [GNode.classify]
    ∧ (process_email 100 "fresh-id" c2Oracle c2Email { db := some c2Db }).1.db =
        some c2Db := by
  refine ⟨rfl, ?_, ?_⟩ <;> rfl

/-! ## C1 — session start: skip, resume, create -/

set_option maxHeartbeats 1000000 in
/-- C1: session start with a fingerprint, persistence available.  If a
session with the fingerprint exists with status completed, the call
returns the skip signal and performs no writes at all; if one exists with
another status, the call returns that session's identity, no new row is
created, and the row is reset to processing with a restarted start
timestamp; if none exists, exactly one new row with status processing is
inserted and the fresh identity is returned. -/
theorem C1_start_session_cases (db : MetricsDB) (cur : Option SessionMetrics)
    (timers : List (String × Time)) (email : EmailDetails) (now : Time)
    (newId : String)
    (huniq : ∀ r1 ∈ db.sessions, ∀ r2 ∈ db.sessions,
      r1.email_hash = generate_email_hash email.body email.sender_email →
      r2.email_hash = generate_email_hash email.body email.sender_email → r1 = r2)
    (hfresh : newId ∉ db.sessions.map SessionRow.id) :
    (∀ row ∈ db.sessions,
      row.email_hash = generate_email_hash email.body email.sender_email →
      row.status = "completed" →
      start_session now newId false false email ⟨some db, cur, timers⟩ =
        (⟨some db, cur, timers⟩, none))
    ∧ (∀ row ∈ db.sessions,
      row.email_hash = generate_email_hash email.body email.sender_email →
      row.status ≠ "completed" →
      (start_session now newId false false email ⟨some db, cur, timers⟩).2 = some row.id
      ∧ (sessionsOf (start_session now newId false false email ⟨some db, cur, timers⟩).1).length
          = db.sessions.length
      ∧ (∃ r ∈ sessionsOf (start_session now newId false false email ⟨some db, cur, timers⟩).1,
          r.id = row.id ∧ r.status = "processing" ∧ r.processing_started_at = now)
      ∧ (∀ r ∈ db.sessions, r.id ≠ row.id →
          r ∈ sessionsOf (start_session now newId false false email ⟨some db, cur, timers⟩).1))
    ∧ ((∀ row ∈ db.sessions,
        row.email_hash ≠ generate_email_hash email.body email.sender_email) →
      (start_session now newId false false email ⟨some db, cur, timers⟩).2 = some newId
      ∧ (∃ r, sessionsOf (start_session now newId false false email ⟨some db, cur, timers⟩).1
          = db.sessions ++ [r]
          ∧ r.id = newId ∧ r.status = "processing"
          ∧ r.email_hash = generate_email_hash email.body email.sender_email
          ∧ r.processing_started_at = now)) := by
  refine ⟨?_, ?_, ?_⟩
  · -- completed: skip, no writes
    intro row hmem hhash hstat
    cases hrows : db.sessions.filter
        (fun r => r.email_hash == generate_email_hash email.body email.sender_email) with
    | nil =>
      exfalso
      have hr : row ∈ db.sessions.filter
          (fun r => r.email_hash == generate_email_hash email.body email.sender_email) :=
        List.mem_filter.mpr ⟨hmem, by simp [hhash]⟩
      rw [hrows] at hr
      cases hr
    | cons h0 t =>
      have hh0 : h0 ∈ db.sessions.filter
          (fun r => r.email_hash == generate_email_hash email.body email.sender_email) := by
        rw [hrows]; exact List.mem_cons_self _ _
      obtain ⟨hh0mem, hh0beq⟩ := List.mem_filter.mp hh0
      have hh0hash : h0.email_hash = generate_email_hash email.body email.sender_email := by
        simpa using hh0beq
      have heq : h0 = row := huniq h0 hh0mem row hmem hh0hash hhash
      simp only [start_session, hrows, Bool.false_eq_true, ite_true, ite_false]
      rw [if_pos (by rw [heq]; exact hstat)]
  · -- failed / processing: resume
    intro row hmem hhash hstat
    cases hrows : db.sessions.filter
        (fun r => r.email_hash == generate_email_hash email.body email.sender_email) with
    | nil =>
      exfalso
      have hr : row ∈ db.sessions.filter
          (fun r => r.email_hash == generate_email_hash email.body email.sender_email) :=
        List.mem_filter.mpr ⟨hmem, by simp [hhash]⟩
      rw [hrows] at hr
      cases hr
    | cons h0 t =>
      have hh0 : h0 ∈ db.sessions.filter
          (fun r => r.email_hash == generate_email_hash email.body email.sender_email) := by
        rw [hrows]; exact List.mem_cons_self _ _
      obtain ⟨hh0mem, hh0beq⟩ := List.mem_filter.mp hh0
      have hh0hash : h0.email_hash = generate_email_hash email.body email.sender_email := by
        simpa using hh0beq
      have heq : h0 = row := huniq h0 hh0mem row hmem hh0hash hhash
      subst heq
      simp only [start_session, hrows, Bool.false_eq_true, ite_true, ite_false]
      rw [if_neg hstat]
      refine ⟨rfl, ?_, ?_, ?_⟩
      · simp [sessionsOf]
      · refine ⟨{ h0 with status := "processing", processing_started_at := now }, ?_, rfl, rfl, rfl⟩
        simp only [sessionsOf]
        have : ({ h0 with status := "processing", processing_started_at := now } : SessionRow)
            = (fun r => if r.id = h0.id then
                { r with status := "processing", processing_started_at := now } else r) h0 := by
          simp
        rw [this]
        exact List.mem_map_of_mem _ hh0mem
      · intro r hr hrid
        simp only [sessionsOf]
        have : r = (fun s => if s.id = h0.id then
            { s with status := "processing", processing_started_at := now } else s) r := by
          simp [hrid]
        rw [this]
        exact List.mem_map_of_mem _ hr
  · -- no session with this fingerprint: insert one new row
    intro hnone
    have hrows : db.sessions.filter
        (fun r => r.email_hash == generate_email_hash email.body email.sender_email) = [] := by
      apply List.filter_eq_nil_iff.mpr
      intro r hr
      simp [hnone r hr]
    simp only [start_session, hrows, Bool.false_eq_true, ite_true, ite_false]
    refine ⟨by trivial, ⟨{ id := newId, email_hash := generate_email_hash email.body email.sender_email, sender_email := email.sender_email, sender_name := email.sender_name, subject := email.subject, processing_started_at := now, status := "processing" }, ?_, rfl, rfl, rfl, rfl⟩⟩
    simp [sessionsOf]

def c1Row : SessionRow :=
  { id := "sess-f", email_hash := generate_email_hash "hello body" "a@b.c",
    processing_started_at := 10, status := "failed" }

/-- Witness for C1 on the resume branch: restarting a failed session for
the same fingerprint returns the stored identity. -/
theorem C1_start_session_cases_witness :
    (start_session 100 "new-id" false false c10Email
      ⟨some { sessions := [c1Row] }, none, []⟩).2 = some "sess-f" :=
  ((C1_start_session_cases { sessions := [c1Row] } none [] c10Email 100 "new-id"
    (by decide) (by decide)).2.1 c1Row (List.mem_cons_self _ _) rfl (by decide)).1

/-! ## C4 — ContinuationGate "no" halts after Classify -/

/-- Running the graph when classification succeeds and the continuation
decision normalises to "no": only Classify executes, the run returns the
classified state, and the store gains exactly one classification row and
one `classify` stage record. -/
theorem graph_invoke_gate_no (now : Time) (o : Oracle) (s0 : AgentState)
    (cs : SessionMetrics) (d : MetricsDB) (lbl cont : String)
    (hclass : o.classifyResp = .ok lbl) (hcont : o.continuationResp = .ok cont)
    (hno : pyLower (pyStrip cont) = "no") :
    graph_invoke now o s0 ⟨some d, some cs, []⟩ =
      ⟨⟨some { d with
          node_executions := d.node_executions ++
            [{ session_id := cs.session_id, node_name := "classify",
               started_at := now, completed_at := now,
               duration_ms := 0, success := true, error_message := none }],
          classification_results := d.classification_results ++ [(cs.session_id, pyStrip lbl)] },
        some cs, []⟩,
       [.classify], .ok { s0 with label := pyStrip lbl }⟩ := by
  simp [graph_invoke, classify_node, start_node_timer, log_classification,
    end_node_timer, should_continue_processing, hclass, hcont, hno]

set_option maxHeartbeats 1600000 in
/-- C4: in every run whose continuation decision normalises (trimmed,
case-insensitive) to "no", the pipeline goes from Classify directly to
End — GenerateQuery, Retrieve, DocumentExtraction, GenerateDraft,
EditDraft, Notify and CreateDraftArtifact never execute — the session ends
completed with the classification set, and only the Classify stage is
recorded. -/
theorem C4_gate_no_only_classify (now : Time) (newId : String) (o : Oracle)
    (email : EmailDetails) (db : MetricsDB) (lbl cont : String)
    (hclass : o.classifyResp = .ok lbl)
    (hcont : o.continuationResp = .ok cont)
    (hno : pyLower (pyStrip cont) = "no")
    (hnotdone : ∀ row ∈ db.sessions,
      row.email_hash = generate_email_hash email.body email.sender_email →
      row.status ≠ "completed") :
    (process_email now newId o email ⟨some db, none, []⟩).2.2 = [GNode.classify]
    ∧ (∃ sid, (process_email now newId o email ⟨some db, none, []⟩).2.1 = some sid
        ∧ ∃ r ∈ sessionsOf (process_email now newId o email ⟨some db, none, []⟩).1,
            r.id = sid ∧ r.status = "completed" ∧ r.classification = some (pyStrip lbl))
    ∧ (nodeExecsOf (process_email now newId o email ⟨some db, none, []⟩).1).map
        NodeExecRow.node_name =
      db.node_executions.map NodeExecRow.node_name ++ ["classify"] := by
  cases hrows : db.sessions.filter
      (fun r => r.email_hash == generate_email_hash email.body email.sender_email) with
  | cons h0 t =>
    -- a failed or processing session exists: it is resumed
    have hh0 : h0 ∈ db.sessions.filter
        (fun r => r.email_hash == generate_email_hash email.body email.sender_email) := by
      rw [hrows]; exact List.mem_cons_self _ _
    obtain ⟨hh0mem, hh0beq⟩ := List.mem_filter.mp hh0
    have hh0hash : h0.email_hash = generate_email_hash email.body email.sender_email := by
      simpa using hh0beq
    have hstat := hnotdone h0 hh0mem hh0hash
    have hstart : start_session now newId false false email ⟨some db, none, []⟩ =
        (⟨some { db with sessions := db.sessions.map (fun r => if r.id = h0.id then { r with status := "processing", processing_started_at := now } else r) },
          some ⟨h0.id, generate_email_hash email.body email.sender_email, email.sender_email, email.sender_name, email.subject, now⟩, []⟩,
         some h0.id) := by
      simp only [start_session, hrows, Bool.false_eq_true, ite_true, ite_false]
      rw [if_neg hstat]
    have hg := graph_invoke_gate_no now o
      { email_text := email.body, subject := email.subject,
        sender_name := email.sender_name, sender_email := email.sender_email }
      ⟨h0.id, generate_email_hash email.body email.sender_email, email.sender_email, email.sender_name, email.subject, now⟩
      { db with sessions := db.sessions.map (fun r => if r.id = h0.id then { r with status := "processing", processing_started_at := now } else r) }
      lbl cont hclass hcont hno
    refine ⟨?_, ⟨h0.id, ?_, ?_⟩, ?_⟩
    · simp only [process_email, hstart, hg]
    · simp only [process_email, hstart, hg]
    · simp only [process_email, hstart, hg, complete_session, sessionsOf]
      simp only [Option.isNone_none, ite_true]
      rw [List.map_map]
      refine ⟨_, List.mem_map_of_mem _ hh0mem, ?_, ?_, ?_⟩ <;> simp
    · simp only [process_email, hstart, hg, complete_session, nodeExecsOf]
      simp [List.map_append]
  | nil =>
    -- no session with this fingerprint: a fresh one is inserted
    have hstart : start_session now newId false false email ⟨some db, none, []⟩ =
        (⟨some { db with sessions := db.sessions ++ [{ id := newId, email_hash := generate_email_hash email.body email.sender_email, sender_email := email.sender_email, sender_name := email.sender_name, subject := email.subject, processing_started_at := now, status := "processing" }] },
          some ⟨newId, generate_email_hash email.body email.sender_email, email.sender_email, email.sender_name, email.subject, now⟩, []⟩,
         some newId) := by
      simp only [start_session, hrows, Bool.false_eq_true, ite_true, ite_false]
    have hg := graph_invoke_gate_no now o
      { email_text := email.body, subject := email.subject,
        sender_name := email.sender_name, sender_email := email.sender_email }
      ⟨newId, generate_email_hash email.body email.sender_email, email.sender_email, email.sender_name, email.subject, now⟩
      { db with sessions := db.sessions ++ [{ id := newId, email_hash := generate_email_hash email.body email.sender_email, sender_email := email.sender_email, sender_name := email.sender_name, subject := email.subject, processing_started_at := now, status := "processing" }] }
      lbl cont hclass hcont hno
    refine ⟨?_, ⟨newId, ?_, ?_⟩, ?_⟩
    · simp only [process_email, hstart, hg]
    · simp only [process_email, hstart, hg]
    · simp only [process_email, hstart, hg, complete_session, sessionsOf]
      simp only [Option.isNone_none, ite_true]
      refine ⟨_, List.mem_map_of_mem _ (List.mem_append_right _ (List.mem_cons_self _ _)), ?_, ?_, ?_⟩ <;> simp
    · simp only [process_email, hstart, hg, complete_session, nodeExecsOf]
      simp [List.map_append]

def c4Email : EmailDetails :=
  { body := "We do not allow guests", sender_email := "h@s.o" }

def c4Oracle : Oracle :=
  { classifyResp := .ok "No Guests", continuationResp := .ok " NO " }

/-- Witness for C4: a first-seen email classified "No Guests" whose
continuation response " NO " normalises to "no". -/
theorem C4_gate_no_only_classify_witness :
    (process_email 7 "nid" c4Oracle c4Email ⟨some {}, none, []⟩).2.2 = [GNode.classify]
    ∧ (nodeExecsOf (process_email 7 "nid" c4Oracle c4Email ⟨some {}, none, []⟩).1).map
        NodeExecRow.node_name = ["classify"] := by
  have h := C4_gate_no_only_classify 7 "nid" c4Oracle c4Email {} "No Guests" " NO "
    rfl rfl rfl (fun row hmem => absurd hmem (List.not_mem_nil _))
  exact ⟨h.1, h.2.2⟩

/-! ## C9 — completion arithmetic and status transitions -/

/-- The session-recorder operations, each carrying its time sample.  The
infra flags are `false`: the invariant concerns runs whose persistence
writes succeed. -/
inductive MetricsOp where
  | startOp (now : Time) (newId : String) (email : EmailDetails)
  | completeOp (now : Time) (label : Option String) (error : Option String)
  | startTimerOp (now : Time) (name : String)
  | endTimerOp (now : Time) (name : String) (success : Bool) (error : Option String)

def applyOp : MetricsOp → MCState → MCState
  | .startOp now newId email, st => (start_session now newId false false email st).1
  | .completeOp now label error, st => complete_session now false label error st
  | .startTimerOp now name, st => start_node_timer now name st
  | .endTimerOp now name success error, st => end_node_timer now false name success error st

/-- Allowed status change of one session row across one operation:
unchanged, processing → completed/failed, or the resume reset
failed → processing; never backward out of completed. -/
def statusStep (old new : String) : Prop :=
  old = new
  ∨ (old = "processing" ∧ (new = "completed" ∨ new = "failed"))
  ∨ (old = "failed" ∧ new = "processing")

/-- Recorder-state invariant: session ids unique, statuses in the
documented set, and the in-memory handle points at a processing row whose
persisted start equals the in-memory start. -/
def MInv (st : MCState) : Prop :=
  ((sessionsOf st).map SessionRow.id).Nodup
  ∧ (∀ r ∈ sessionsOf st,
      r.status = "processing" ∨ r.status = "completed" ∨ r.status = "failed")
  ∧ (∀ cs, st.current_session = some cs →
      ∀ r ∈ sessionsOf st, r.id = cs.session_id →
        r.status = "processing" ∧ r.processing_started_at = cs.started_at)

/-- Freshness of the generated uuid for a session start. -/
def opWf : MetricsOp → MCState → Prop
  | .startOp _ newId _, st => newId ∉ (sessionsOf st).map SessionRow.id
  | _, _ => True

theorem eq_of_same_id {S : List SessionRow} (hnd : (S.map SessionRow.id).Nodup)
    {r r2 : SessionRow} (hr : r ∈ S) (hr2 : r2 ∈ S) (hid : r2.id = r.id) :
    r2 = r :=
  List.inj_on_of_nodup_map hnd hr2 hr hid

theorem statusStep_of_unchanged {S : List SessionRow}
    (hnd : (S.map SessionRow.id).Nodup) :
    ∀ r ∈ S, ∀ r2 ∈ S, r2.id = r.id → statusStep r.status r2.status := by
  intro r hr r2 hr2 hid
  rw [eq_of_same_id hnd hr hr2 hid]
  exact Or.inl rfl

theorem MInv_congr {st st2 : MCState} (hs : sessionsOf st2 = sessionsOf st)
    (hc : st2.current_session = st.current_session) (h : MInv st) : MInv st2 := by
  obtain ⟨a, b, c⟩ := h
  refine ⟨by rw [hs]; exact a, by rw [hs]; exact b, ?_⟩
  intro cs hcs r hr hid
  rw [hs] at hr
  rw [hc] at hcs
  exact c cs hcs r hr hid

theorem start_node_timer_sessions (now : Time) (n : String) (st : MCState) :
    sessionsOf (start_node_timer now n st) = sessionsOf st := by
  obtain ⟨d, c, t⟩ := st
  cases c <;> rfl

theorem start_node_timer_current (now : Time) (n : String) (st : MCState) :
    (start_node_timer now n st).current_session = st.current_session := by
  obtain ⟨d, c, t⟩ := st
  cases c <;> rfl

theorem end_node_timer_sessions (now : Time) (n : String) (suc : Bool)
    (err : Option String) (st : MCState) :
    sessionsOf (end_node_timer now false n suc err st) = sessionsOf st := by
  obtain ⟨d, c, t⟩ := st
  cases c
  · rfl
  · simp only [end_node_timer]
    cases hl : List.lookup n t
    · simp [hl]
    · cases d
      · simp [hl, sessionsOf]
      · simp [hl, sessionsOf]

theorem end_node_timer_current (now : Time) (n : String) (suc : Bool)
    (err : Option String) (st : MCState) :
    (end_node_timer now false n suc err st).current_session = st.current_session := by
  obtain ⟨d, c, t⟩ := st
  cases c
  · rfl
  · simp only [end_node_timer]
    cases hl : List.lookup n t
    · simp [hl]
    · cases d
      · simp [hl]
      · simp [hl]

set_option maxHeartbeats 3200000 in
/-- C9: with persistence writes succeeding, every session-recorder
operation preserves the state invariant; each session row's status changes
only along the allowed transitions (processing → completed/failed, the
resume reset failed/processing → processing, otherwise unchanged — never
backward out of completed); and on completion the persisted row satisfies
completed_at = now and total_duration = completed_at − started_at ≥ 0
under a monotone clock. -/
theorem C9_completion_and_status_transitions (st : MCState) (op : MetricsOp)
    (hinv : MInv st) (hwf : opWf op st) :
    MInv (applyOp op st)
    ∧ (∀ r ∈ sessionsOf st, ∀ r2 ∈ sessionsOf (applyOp op st),
        r2.id = r.id → statusStep r.status r2.status)
    ∧ (∀ now label error, op = .completeOp now label error →
        ∀ cs, st.current_session = some cs → cs.started_at ≤ now →
        ∀ r2 ∈ sessionsOf (applyOp op st), r2.id = cs.session_id →
          r2.processing_completed_at = some now
          ∧ r2.total_duration_ms = some (now - r2.processing_started_at)
          ∧ 0 ≤ now - r2.processing_started_at) := by
  obtain ⟨hnd, hval, hcur⟩ := hinv
  cases op with
  | startTimerOp now name =>
    simp only [applyOp]
    refine ⟨MInv_congr (start_node_timer_sessions now name st)
        (start_node_timer_current now name st) ⟨hnd, hval, hcur⟩, ?_, ?_⟩
    · rw [start_node_timer_sessions]
      exact statusStep_of_unchanged hnd
    · intro now2 label error heq
      exact MetricsOp.noConfusion heq
  | endTimerOp now name success error =>
    simp only [applyOp]
    refine ⟨MInv_congr (end_node_timer_sessions now name success error st)
        (end_node_timer_current now name success error st) ⟨hnd, hval, hcur⟩, ?_, ?_⟩
    · rw [end_node_timer_sessions]
      exact statusStep_of_unchanged hnd
    · intro now2 label2 error2 heq
      exact MetricsOp.noConfusion heq
  | startOp now newId email =>
    simp only [applyOp]
    simp only [opWf] at hwf
    obtain ⟨db0, cur0, tm0⟩ := st
    cases db0 with
    | none =>
      have hres : (start_session now newId false false email ⟨none, cur0, tm0⟩).1 =
          ⟨none, some ⟨newId, generate_email_hash email.body email.sender_email, email.sender_email, email.sender_name, email.subject, now⟩, tm0⟩ := by
        simp [start_session]
      rw [hres]
      refine ⟨⟨by simp [sessionsOf], ?_, ?_⟩, ?_, ?_⟩
      · intro r hr
        simp only [sessionsOf] at hr
        exact (List.not_mem_nil r hr).elim
      · intro cs hcs r hr hid
        simp only [sessionsOf] at hr
        exact (List.not_mem_nil r hr).elim
      · intro r hr
        simp only [sessionsOf] at hr
        exact (List.not_mem_nil r hr).elim
      · intro now2 label error heq
        exact MetricsOp.noConfusion heq
    | some d =>
      simp only [sessionsOf] at hnd hval hwf
      cases hrows : d.sessions.filter
          (fun r => r.email_hash == generate_email_hash email.body email.sender_email) with
      | nil =>
        have hres : (start_session now newId false false email ⟨some d, cur0, tm0⟩).1 =
            ⟨some { d with sessions := d.sessions ++ [{ id := newId, email_hash := generate_email_hash email.body email.sender_email, sender_email := email.sender_email, sender_name := email.sender_name, subject := email.subject, processing_started_at := now, status := "processing" }] },
             some ⟨newId, generate_email_hash email.body email.sender_email, email.sender_email, email.sender_name, email.subject, now⟩, tm0⟩ := by
          simp only [start_session, hrows, Bool.false_eq_true, ite_true, ite_false]
        rw [hres]
        refine ⟨⟨?_, ?_, ?_⟩, ?_, ?_⟩
        · -- ids stay nodup after appending the fresh id
          simp only [sessionsOf, List.map_append, List.map_cons, List.map_nil]
          rw [List.nodup_append]
          refine ⟨hnd, List.nodup_singleton _, ?_⟩
          intro a ha hb
          rw [List.mem_singleton] at hb
          subst hb
          exact hwf ha
        · intro r hr
          simp only [sessionsOf] at hr
          rcases List.mem_append.mp hr with h | h
          · exact hval r h
          · rw [List.mem_singleton] at h
            subst h
            exact Or.inl rfl
        · intro cs hcs r hr hid
          injection hcs with hcs
          subst hcs
          simp only [sessionsOf] at hr
          rcases List.mem_append.mp hr with h | h
          · exfalso
            apply hwf
            have hmem := List.mem_map_of_mem SessionRow.id h
            rw [hid] at hmem
            exact hmem
          · rw [List.mem_singleton] at h
            subst h
            exact ⟨rfl, rfl⟩
        · intro r hr r2 hr2 hid
          simp only [sessionsOf] at hr hr2
          rcases List.mem_append.mp hr2 with h | h
          · exact statusStep_of_unchanged hnd r hr r2 h hid
          · exfalso
            rw [List.mem_singleton] at h
            subst h
            apply hwf
            have hmem := List.mem_map_of_mem SessionRow.id hr
            rw [← hid] at hmem
            exact hmem
        · intro now2 label error heq
          exact MetricsOp.noConfusion heq
      | cons h0 t0 =>
        have hh0 : h0 ∈ d.sessions.filter
            (fun r => r.email_hash == generate_email_hash email.body email.sender_email) := by
          rw [hrows]; exact List.mem_cons_self _ _
        obtain ⟨hh0mem, hh0beq⟩ := List.mem_filter.mp hh0
        by_cases hcomp : h0.status = "completed"
        · -- completed: skip, recorder state unchanged
          have hres : (start_session now newId false false email ⟨some d, cur0, tm0⟩).1 =
              ⟨some d, cur0, tm0⟩ := by
            simp only [start_session, hrows, Bool.false_eq_true, ite_true, ite_false]
            rw [if_pos hcomp]
          rw [hres]
          refine ⟨⟨hnd, hval, hcur⟩, ?_, ?_⟩
          · exact statusStep_of_unchanged hnd
          · intro now2 label error heq
            exact MetricsOp.noConfusion heq
        · -- failed or processing: resumed, status reset to processing
          have hres : (start_session now newId false false email ⟨some d, cur0, tm0⟩).1 =
              ⟨some { d with sessions := d.sessions.map (fun r => if r.id = h0.id then { r with status := "processing", processing_started_at := now } else r) },
               some ⟨h0.id, generate_email_hash email.body email.sender_email, email.sender_email, email.sender_name, email.subject, now⟩, tm0⟩ := by
            simp only [start_session, hrows, Bool.false_eq_true, ite_true, ite_false]
            rw [if_neg hcomp]
          rw [hres]
          have hidsame : ∀ r : SessionRow,
              ((fun r => if r.id = h0.id then { r with status := "processing", processing_started_at := now } else r) r).id = r.id := by
            intro r
            by_cases h : r.id = h0.id <;> simp [h]
          have hids : (d.sessions.map (fun r => if r.id = h0.id then { r with status := "processing", processing_started_at := now } else r)).map SessionRow.id = d.sessions.map SessionRow.id := by
            rw [List.map_map]
            apply List.map_congr_left
            intro r hr
            exact hidsame r
          refine ⟨⟨?_, ?_, ?_⟩, ?_, ?_⟩
          · simp only [sessionsOf]
            rw [hids]
            exact hnd
          · intro r2 hr2
            simp only [sessionsOf] at hr2
            obtain ⟨r, hrmem, hfr⟩ := List.mem_map.mp hr2
            subst hfr
            by_cases h : r.id = h0.id
            · simp [h]
            · have hkeep : (if r.id = h0.id then { r with status := "processing", processing_started_at := now } else r) = r := by
                simp [h]
              rw [hkeep]
              exact hval r hrmem
          · intro cs hcs r2 hr2 hid
            injection hcs with hcs
            subst hcs
            simp only [sessionsOf] at hr2
            obtain ⟨r, hrmem, hfr⟩ := List.mem_map.mp hr2
            subst hfr
            have hrid : r.id = h0.id := by
              rw [← hidsame r]
              exact hid
            obtain rfl := eq_of_same_id hnd hh0mem hrmem hrid
            constructor
            · simp [hrid]
            · simp [hrid]
          · intro r hr r2 hr2 hid
            simp only [sessionsOf] at hr hr2
            obtain ⟨rp, hrpmem, hfr⟩ := List.mem_map.mp hr2
            subst hfr
            have hrpid : rp.id = r.id := by
              rw [← hidsame rp]
              exact hid
            obtain rfl := eq_of_same_id hnd hr hrpmem hrpid
            by_cases h : rp.id = h0.id
            · obtain rfl := eq_of_same_id hnd hh0mem hr h
              rw [if_pos h]
              rcases hval _ hr with hs | hs | hs
              · exact Or.inl (by rw [hs])
              · exact absurd hs hcomp
              · exact Or.inr (Or.inr ⟨hs, rfl⟩)
            · rw [if_neg h]
              exact Or.inl rfl
          · intro now2 label error heq
            exact MetricsOp.noConfusion heq
  | completeOp nowc label error =>
    simp only [applyOp]
    obtain ⟨db0, cur0, tm0⟩ := st
    cases cur0 with
    | none =>
      have hres : complete_session nowc false label error ⟨db0, none, tm0⟩ =
          ⟨db0, none, tm0⟩ := by
        simp [complete_session]
      rw [hres]
      refine ⟨⟨hnd, hval, hcur⟩, statusStep_of_unchanged hnd, ?_⟩
      intro now2 label2 error2 heq cs hcs
      exact Option.noConfusion hcs
    | some cs0 =>
      cases db0 with
      | none =>
        have hres : complete_session nowc false label error ⟨none, some cs0, tm0⟩ =
            ⟨none, none, tm0⟩ := by
          simp [complete_session]
        rw [hres]
        refine ⟨⟨by simp [sessionsOf], ?_, ?_⟩, ?_, ?_⟩
        · intro r hr
          simp only [sessionsOf] at hr
          exact (List.not_mem_nil r hr).elim
        · intro cs hcs r hr hid
          simp only [sessionsOf] at hr
          exact (List.not_mem_nil r hr).elim
        · intro r hr
          simp only [sessionsOf] at hr
          exact (List.not_mem_nil r hr).elim
        · intro now2 label2 error2 heq cs hcs hle r2 hr2
          simp only [sessionsOf] at hr2
          exact (List.not_mem_nil r2 hr2).elim
      | some d =>
        simp only [sessionsOf] at hnd hval
        have hres : complete_session nowc false label error ⟨some d, some cs0, tm0⟩ =
            ⟨some { d with sessions := d.sessions.map (fun r => if r.id = cs0.session_id then { r with processing_completed_at := some nowc, total_duration_ms := some (nowc - cs0.started_at), status := if error.isNone then "completed" else "failed", error_message := error, classification := label } else r) },
             none, tm0⟩ := by
          simp [complete_session]
        rw [hres]
        have hidsame2 : ∀ r : SessionRow,
            ((fun r => if r.id = cs0.session_id then { r with processing_completed_at := some nowc, total_duration_ms := some (nowc - cs0.started_at), status := if error.isNone then "completed" else "failed", error_message := error, classification := label } else r) r).id = r.id := by
          intro r
          by_cases h : r.id = cs0.session_id <;> simp [h]
        have hids2 : (d.sessions.map (fun r => if r.id = cs0.session_id then { r with processing_completed_at := some nowc, total_duration_ms := some (nowc - cs0.started_at), status := if error.isNone then "completed" else "failed", error_message := error, classification := label } else r)).map SessionRow.id = d.sessions.map SessionRow.id := by
          rw [List.map_map]
          apply List.map_congr_left
          intro r hr
          exact hidsame2 r
        refine ⟨⟨?_, ?_, ?_⟩, ?_, ?_⟩
        · simp only [sessionsOf]
          rw [hids2]
          exact hnd
        · intro r2 hr2
          simp only [sessionsOf] at hr2
          obtain ⟨r, hrmem, hfr⟩ := List.mem_map.mp hr2
          subst hfr
          by_cases h : r.id = cs0.session_id
          · cases error <;> simp [h]
          · have hkeep : (if r.id = cs0.session_id then { r with processing_completed_at := some nowc, total_duration_ms := some (nowc - cs0.started_at), status := if error.isNone then "completed" else "failed", error_message := error, classification := label } else r) = r := by
              simp [h]
            rw [hkeep]
            exact hval r hrmem
        · intro cs hcs r2 hr2 hid
          exact Option.noConfusion hcs
        · intro r hr r2 hr2 hid
          simp only [sessionsOf] at hr hr2
          obtain ⟨rp, hrpmem, hfr⟩ := List.mem_map.mp hr2
          subst hfr
          have hrpid : rp.id = r.id := by
            rw [← hidsame2 rp]
            exact hid
          obtain rfl := eq_of_same_id hnd hr hrpmem hrpid
          by_cases h : rp.id = cs0.session_id
          · have hproc := (hcur cs0 rfl rp hr h).1
            rw [if_pos h]
            refine Or.inr (Or.inl ⟨hproc, ?_⟩)
            cases error
            · left
              rfl
            · right
              rfl
          · rw [if_neg h]
            exact Or.inl rfl
        · intro now2 label2 error2 heq cs hcs hle r2 hr2 hid
          injection heq with he1 he2 he3
          subst he1
          subst he2
          subst he3
          injection hcs with hcs
          subst hcs
          simp only [sessionsOf] at hr2
          obtain ⟨r, hrmem, hfr⟩ := List.mem_map.mp hr2
          subst hfr
          by_cases h : r.id = cs0.session_id
          · have hrow := hcur cs0 rfl r hrmem h
            rw [if_pos h]
            have hps : ({ r with processing_completed_at := some nowc, total_duration_ms := some (nowc - cs0.started_at), status := if error.isNone then "completed" else "failed", error_message := error, classification := label } : SessionRow).processing_started_at = cs0.started_at := by
              simp [hrow.2]
            rw [hps]
            exact ⟨rfl, rfl, sub_nonneg.mpr hle⟩
          · exfalso
            apply h
            rw [← hidsame2 r]
            exact hid

def c9Row : SessionRow :=
  { id := "s1", email_hash := "h1", processing_started_at := 10, status := "processing" }

def c9Cs : SessionMetrics :=
  { session_id := "s1", email_hash := "h1", started_at := 10 }

def c9St : MCState :=
  { db := some { sessions := [c9Row] }, current_session := some c9Cs }

/-- The row as persisted after completing `c9St` at time 25. -/
def c9Row2 : SessionRow :=
  { id := "s1", email_hash := "h1", processing_started_at := 10,
    processing_completed_at := some 25, total_duration_ms := some 15,
    status := "completed", classification := some "L" }

/-- Witness for C9: completing the session of `c9St` at time 25 stores
completed_at = 25 and total_duration = completed_at − started_at = 15 ≥ 0. -/
theorem C9_completion_and_status_transitions_witness :
    c9Row2.processing_completed_at = some 25
    ∧ c9Row2.total_duration_ms = some (25 - c9Row2.processing_started_at)
    ∧ 0 ≤ 25 - c9Row2.processing_started_at := by
  have hinv : MInv c9St := by
    refine ⟨by decide, by decide, ?_⟩
    intro cs hcs r hr hid
    injection hcs with hcs
    subst hcs
    have hr0 : r = c9Row := by simpa [c9St, sessionsOf] using hr
    subst hr0
    exact ⟨rfl, rfl⟩
  have h := (C9_completion_and_status_transitions c9St
      (.completeOp 25 (some "L") none) hinv trivial).2.2 25 (some "L") none rfl
      c9Cs rfl (by decide) c9Row2 (by decide) (by decide)
  exact h

end BookingAssistant
